import Mathlib

/-!
Verification development for the mac-optimizer storage engine.

This file gives a shallow embedding, in Lean 4, of the parts of the
repository relevant to the frozen claims:

* `src/agents/safe_purge_executor.py` — path validation and deletion
  (`generate_cleanup_script`);
* `src/agents/storage_scanner.py` — risk classification (`classify_risk`),
  the size probe (`get_dir_size_fast`), the phase-1/phase-2 scanners,
  the attestation canonicalization (`sign_scan_results`), the recommender
  (`build_recommendations`) and the growth prediction
  (`predict_space_exhaustion`).

Modelling conventions:

* Paths are Lean `String`s; string operations from Python (`startswith`,
  `in`, `os.path.basename`, `str.replace`, `str.count`) are implemented
  over the underlying `List Char`.
* The filesystem is an explicit finite tree (`FSNode`); `os.walk`,
  `os.listdir`, `os.path.isdir`, `os.path.isfile`, `os.path.getsize`
  are interpreted against the tree.  Symbolic links are modelled as
  opaque leaf nodes: with `followlinks=False` the Python code never reads
  through them (it skips them in size sums and never descends into them),
  so a leaf contributing nothing is an exact model of their effect.
* In the purge executor the filesystem appears only through
  `os.path.realpath` and `os.path.exists`; these are oracles supplied in a
  `PurgeEnv`, which is how symlink resolution is made explicit.
* Machine floats appear in the source only in the growth prediction and in
  presentation strings.  The prediction is modelled over `ℚ` with Python's
  banker's rounding made explicit (`pyRound`); presentation-only outputs
  (`format_size` strings, `get_last_accessed` timestamps) are abstracted
  as oracle functions since no claim constrains them.
* Cryptographic hashes (SHA-256, MD5) are abstracted as function
  parameters; every structural fact about what is hashed is modelled
  exactly.
-/

/- ── String helpers (Python string/path primitives over `List Char`) ── -/

/-- The characters of a string. -/
def chars (s : String) : List Char := s.data

/-- Python `s.startswith(pre)`. -/
def strStarts (s pre : String) : Bool := (chars pre).isPrefixOf (chars s)

/-- Python `pat in s` (substring containment). -/
def strContains (s pat : String) : Bool :=
  (chars s).tails.any (fun t => (chars pat).isPrefixOf t)

/-- Python `s.count("/")` — number of `/` characters. -/
def countSep (s : String) : Nat := (chars s).count '/'

/-- `os.path.basename`: everything after the last `/` (the whole string if
there is no `/`, empty if the string ends in `/`). -/
def basename (s : String) : String :=
  String.mk (((chars s).reverse.takeWhile (fun c => c ≠ '/')).reverse)

/-- `os.path.join a b` for a relative second component: `a ++ "/" ++ b`. -/
def joinPath (a b : String) : String := a ++ "/" ++ b

/-- Auxiliary for `strReplace`: replace every (non-overlapping, leftmost)
occurrence of the nonempty pattern `p :: ps` by `sub`. -/
def replaceAux (p : Char) (ps sub : List Char) : List Char → List Char
  | [] => []
  | c :: rest =>
    if (p :: ps).isPrefixOf (c :: rest) then
      sub ++ replaceAux p ps sub (rest.drop ps.length)
    else
      c :: replaceAux p ps sub rest
  termination_by l => l.length
  decreasing_by
  · simp only [List.length_drop, List.length_cons]
    omega
  · simp only [List.length_cons]
    omega

/-- Python `s.replace(pat, sub)` (all occurrences, left to right). -/
def strReplace (s pat sub : String) : String :=
  match chars pat with
  | [] => s
  | p :: ps => String.mk (replaceAux p ps (chars sub) (chars s))

/-- Split a path into its nonempty `/`-separated components. -/
def splitSlash (s : String) : List String :=
  ((chars s).splitOn '/').filterMap
    (fun l => if l = [] then none else some (String.mk l))

/-- A path is absolute when it begins with `/`. -/
def absPath (s : String) : Bool := (chars s).head? = some '/'

/- ── Filesystem model ── -/

/-- A finite filesystem tree.  `symlink` is an opaque leaf: the scanner
runs every walk with `followlinks=False` and skips links in size sums, so
links contribute nothing and are never descended into. -/
inductive FSNode where
  | file (size : Nat)
  | dir (entries : List (String × FSNode))
  | symlink

/-- First entry with the given name, as `os.scandir` finds it. -/
def childNamed (entries : List (String × FSNode)) (name : String) : Option FSNode :=
  (entries.find? (fun e => e.1 = name)).map (·.2)

/-- Resolve a list of path components against a tree. -/
def resolveParts : FSNode → List String → Option FSNode
  | n, [] => some n
  | FSNode.dir es, c :: cs =>
    match childNamed es c with
    | some ch => resolveParts ch cs
    | none => none
  | _, _ :: _ => none

/-- Resolve a path string against the tree rooted at `root`. -/
def resolve (root : FSNode) (p : String) : Option FSNode :=
  resolveParts root (splitSlash p)

/-- `os.path.isdir`. -/
def isdir (root : FSNode) (p : String) : Bool :=
  match resolve root p with
  | some (FSNode.dir _) => true
  | _ => false

/-- `os.path.isfile`. -/
def isfile (root : FSNode) (p : String) : Bool :=
  match resolve root p with
  | some (FSNode.file _) => true
  | _ => false

/-- `os.path.getsize` (0 when the path does not denote a file). -/
def getsize (root : FSNode) (p : String) : Nat :=
  match resolve root p with
  | some (FSNode.file n) => n
  | _ => 0

/-- `os.listdir`: entry names in directory order. -/
def listdir (root : FSNode) (p : String) : List String :=
  match resolve root p with
  | some (FSNode.dir es) => es.map (·.1)
  | _ => []

/-- Whether a node is a directory. -/
def FSNode.isDir : FSNode → Bool
  | FSNode.dir _ => true
  | _ => false

mutual

/-- The contribution of one entry inside a walked directory: plain files
contribute their size (`os.path.getsize`), subdirectories their walked
subtree, symlinks nothing (the `islink` check and `followlinks=False`). -/
def entrySize : FSNode → Nat
  | FSNode.file n => n
  | FSNode.symlink => 0
  | FSNode.dir es => sumEntries es

/-- Sum of file sizes over one directory's entries as `os.walk` with
`followlinks=False` visits them. -/
def sumEntries : List (String × FSNode) → Nat
  | [] => 0
  | e :: rest => entrySize e.2 + sumEntries rest

end

/-- `get_dir_size_fast` (storage_scanner.py:203-217): the size of the
subtree reached by `os.walk(path, followlinks=False)`, skipping symlinks.
`os.walk` applied to a non-directory yields nothing, so a plain file or a
link contributes a total of 0. -/
def get_dir_size_fast : FSNode → Nat
  | FSNode.file _ => 0
  | FSNode.symlink => 0
  | FSNode.dir entries => sumEntries entries

/-- `get_dir_size_fast` applied through a path (0 when the path does not
resolve, matching the `except` fallthrough that returns the running
total 0). -/
def dirSizeAt (root : FSNode) (p : String) : Nat :=
  match resolve root p with
  | some n => get_dir_size_fast n
  | none => 0

/- ── Safe Purge Executor (safe_purge_executor.py) ── -/

/-- The filesystem as the purge executor sees it: `os.path.realpath` and
`os.path.exists` oracles (symlink resolution is whatever `rp` says), plus
the byte size the deletion loop computes for an accepted path and whether
the delete call itself succeeds (the per-path `try/except`). -/
structure PurgeEnv where
  user_home : String
  rp : String → String
  ex : String → Bool
  size : String → Nat
  delOk : String → Bool

/-- `safe_zones` (safe_purge_executor.py:17-50), in source order. -/
def safe_zones (home : String) : List String :=
  [ joinPath (joinPath home "Library") "Caches",
    joinPath (joinPath home "Library") "Logs",
    joinPath (joinPath home "Library") "Developer",
    joinPath (joinPath home "Library") "Saved Application State",
    joinPath (joinPath (joinPath home "Library") "Application Support") "CrashReporter",
    joinPath (joinPath (joinPath (joinPath home "Library") "Application Support") "MobileSync") "Backup",
    joinPath (joinPath (joinPath home "Library") "Audio") "Apple Loops",
    joinPath (joinPath home "Library") "Containers",
    joinPath (joinPath home "Library") "Group Containers",
    joinPath (joinPath (joinPath home "Library") "Caches") "Homebrew",
    joinPath (joinPath (joinPath (joinPath home "Library") "Application Support") "Google") "Chrome",
    joinPath (joinPath (joinPath home "Library") "Application Support") "Firefox",
    joinPath (joinPath (joinPath home "Library") "Application Support") "Arc",
    joinPath (joinPath (joinPath home "Library") "Application Support") "BraveSoftware",
    joinPath (joinPath (joinPath home "Library") "Application Support") "Microsoft Edge",
    joinPath home ".npm",
    joinPath home ".cache",
    joinPath (joinPath home ".cargo") "registry",
    joinPath home ".rustup",
    joinPath home ".pyenv",
    joinPath home ".gradle",
    joinPath home ".cocoapods",
    joinPath home ".pub-cache",
    joinPath home ".Trash",
    joinPath (joinPath (joinPath (joinPath home "Library") "Developer") "Xcode") "DerivedData",
    joinPath (joinPath (joinPath home "Library") "Developer") "CoreSimulator" ]

/-- `ALWAYS_SAFE_BASENAMES` (safe_purge_executor.py:54-58). -/
def ALWAYS_SAFE_BASENAMES : List String :=
  [ "node_modules", ".venv", "venv", "__pycache__", ".next", ".nuxt",
    ".cache", ".tox", ".gradle", "Pods", "DerivedData", ".dart_tool",
    "coverage", ".parcel-cache", ".turbo" ]

/-- `FORBIDDEN_PATHS` (safe_purge_executor.py:61-80). -/
def FORBIDDEN_PATHS (home : String) : List String :=
  [ home,
    joinPath home "Desktop",
    joinPath home "Documents",
    joinPath home "Downloads",
    joinPath home "Pictures",
    joinPath home "Music",
    joinPath home "Movies",
    joinPath home "Library",
    "/", "/System", "/Applications", "/Users", "/var", "/private",
    "/usr", "/bin", "/sbin", "/tmp" ]

/-- The safe-zone test of the validation loop
(safe_purge_executor.py:100-110): the real path is strictly inside a
real-path-resolved zone (`real_path.startswith(real_zone + os.sep)` with
the redundant length check) or equals the zone itself. -/
def inSafeZone (env : PurgeEnv) (real_path : String) : Bool :=
  (safe_zones env.user_home).any (fun zone =>
    let real_zone := env.rp zone
    (strStarts real_path (real_zone ++ "/") && real_path.length > real_zone.length)
      || real_path = real_zone)

/-- One iteration of the validation loop
(safe_purge_executor.py:84-113): `some real_path` when the candidate is
accepted for deletion, `none` when it is skipped. -/
def validateOne (env : PurgeEnv) (path : String) : Option String :=
  let real_path := env.rp path
  if ¬ env.ex real_path then none
  else if real_path ∈ FORBIDDEN_PATHS env.user_home then none
  else if basename real_path ∈ ALWAYS_SAFE_BASENAMES && strStarts real_path env.user_home then
    some real_path
  else if inSafeZone env real_path then some real_path
  else none

/-- `validated_paths` accumulated by the loop. -/
def validate_paths (env : PurgeEnv) (target_paths : List String) : List String :=
  target_paths.filterMap (validateOne env)

/-- The single JSON document the purge executor prints. -/
inductive PurgeResult where
  | error (message : String)
  | success (paths_to_delete : Nat) (freed_bytes : Nat) (deleted : List String)
deriving DecidableEq

/-- `generate_cleanup_script` (safe_purge_executor.py:6-147): validate
every candidate, and if nothing survives return the error document;
otherwise delete the validated paths (per-path failures are skipped) and
report the count, freed bytes and deleted list. -/
def generate_cleanup_script (env : PurgeEnv) (target_paths : List String) : PurgeResult :=
  let validated := validate_paths env target_paths
  if validated = [] then
    PurgeResult.error "No valid or safe paths provided for deletion."
  else
    let deleted := validated.filter env.delOk
    PurgeResult.success deleted.length (deleted.map env.size).sum deleted

/-- The deleted paths of a result (empty for the error document). -/
def PurgeResult.deletedPaths : PurgeResult → List String
  | PurgeResult.error _ => []
  | PurgeResult.success _ _ d => d

/-- Spec-side reading of claim C1's acceptance condition, clause (a):
the real path lies under (strictly inside) the user's home directory. -/
def liesUnderHome (home q : String) : Bool := strStarts q (home ++ "/")

/-- Spec-side reading of claim C1's full acceptance condition: either the
basename of the resolved real path is always-safe and the path lies under
the home directory, or the real path is strictly inside or equal to a
resolved safe-zone root.  (Stated from the claim's words, to be compared
with the code's `validateOne`.) -/
def specZoneOk (env : PurgeEnv) (p : String) : Bool :=
  let q := env.rp p
  (basename q ∈ ALWAYS_SAFE_BASENAMES && liesUnderHome env.user_home q)
    || inSafeZone env q

/- ── Storage scanner: configuration and risk classification ── -/

/-- `MIN_ITEM_SIZE` (storage_scanner.py:52): 1 KiB minimum to report. -/
def MIN_ITEM_SIZE : Nat := 1024

/-- `SAFE_PATTERNS` (storage_scanner.py:116-123). -/
def SAFE_PATTERNS : List String :=
  [ "/Caches/", "/cache/", "/Cache/", "/tmp/", "/Temp/",
    "/DerivedData/", "/node_modules/", "/.npm/", "/__pycache__/",
    "/target/debug/", "/target/release/", "/.cargo/registry/",
    "/pkg/mod/cache/", "/.Trash/", "/Logs/", "/log/",
    "/Code Cache/", "/Service Worker/", "/GPUCache/",
    "/ShaderCache/", "/GrShaderCache/", "/ScriptCache/" ]

/-- `CAUTION_PATTERNS` (storage_scanner.py:125-130). -/
def CAUTION_PATTERNS : List String :=
  [ "/Application Support/", "/Containers/", "/Preferences/",
    "/Saved Application State/", "/Homebrew/", "/Docker/",
    "/MobileSync/Backup/", "/Mail Downloads/",
    "/.venv/", "/venv/", "/.virtualenv/" ]

/-- `CRITICAL_PATTERNS` (storage_scanner.py:132-136). -/
def CRITICAL_PATTERNS : List String :=
  [ "/System/", "/usr/", "/bin/", "/sbin/", "/private/var/db/",
    "/Library/LaunchDaemons/", "/Library/LaunchAgents/",
    "/System/Library/", "/private/etc/" ]

/-- `classify_risk` (storage_scanner.py:139-151): first matching pattern
class wins, in the order critical, caution, safe; default `caution`. -/
def classify_risk (path : String) : String :=
  if CRITICAL_PATTERNS.any (fun pat => strContains path pat) then "critical"
  else if CAUTION_PATTERNS.any (fun pat => strContains path pat) then "caution"
  else if SAFE_PATTERNS.any (fun pat => strContains path pat) then "safe"
  else "caution"

/- ── Storage scanner: items and environment ── -/

/-- One discovered reclaimable artifact (the `item` dict of the
scanners; the emitter's camelCase aliases duplicate fields and are not
re-modelled). -/
structure Item where
  path : String
  size : Nat
  size_formatted : String
  last_accessed : String
  risk : String
  category : String
  name : String
  description : String
deriving DecidableEq

/-- The world a scan runs in: the filesystem tree, `HOME`, the `GOPATH`
environment variable (`""` when unset), the outcome of the two subprocess
probes, and the two presentation oracles (`get_last_accessed` strings and
`format_size` strings), which no claim constrains. -/
structure ScanEnv where
  root : FSNode
  home : String
  gopath : String
  tmutil : Option String
  dockerDf : Bool
  atime : String → String
  fmt : Nat → String

/-- `LIBRARY` (storage_scanner.py:49). -/
def ScanEnv.library (env : ScanEnv) : String := joinPath env.home "Library"

/-- Build one item dict as every scanner does. -/
def mkItem (env : ScanEnv) (path : String) (size : Nat)
    (risk category name description : String) : Item :=
  { path := path, size := size, size_formatted := env.fmt size,
    last_accessed := env.atime path, risk := risk, category := category,
    name := name, description := description }

/-- The ubiquitous `if size > threshold: items.append(...)` gate. -/
def gatedItem (env : ScanEnv) (threshold : Nat) (path : String) (size : Nat)
    (risk category name description : String) : List Item :=
  if size > threshold then [mkItem env path size risk category name description]
  else []

/- ── Phase 1: browser caches (storage_scanner.py:329-455) ── -/

/-- The `browsers` table, in insertion order. -/
def browsers (env : ScanEnv) : List (String × String) :=
  [ ("Chrome", joinPath (joinPath (joinPath env.library "Application Support") "Google") "Chrome"),
    ("Chrome Canary", joinPath (joinPath (joinPath env.library "Application Support") "Google") "Chrome Canary"),
    ("Firefox", joinPath (joinPath (joinPath env.library "Application Support") "Firefox") "Profiles"),
    ("Safari", joinPath (joinPath env.library "Caches") "com.apple.Safari"),
    ("Edge", joinPath (joinPath env.library "Application Support") "Microsoft Edge"),
    ("Brave", joinPath (joinPath (joinPath env.library "Application Support") "BraveSoftware") "Brave-Browser") ]

/-- Firefox per-profile cache directories. -/
def firefoxCacheDirs : List String := ["cache2", "startupCache", "thumbnails"]

/-- Chrome-family per-profile cache subdirectories. -/
def chromeCacheSubdirs : List String :=
  [ "Cache", "Code Cache", "GPUCache", "Service Worker",
    "ShaderCache", "GrShaderCache", "ScriptCache" ]

/-- The Firefox branch: enumerate profile directories, then the three
cache directories of each. -/
def scanFirefox (env : ScanEnv) (browser_name base_path : String) : List Item :=
  (listdir env.root base_path).flatMap (fun profile_dir =>
    let profile_path := joinPath base_path profile_dir
    if ¬ isdir env.root profile_path then []
    else firefoxCacheDirs.flatMap (fun cd =>
      let cache_path := joinPath profile_path cd
      if ¬ isdir env.root cache_path then []
      else gatedItem env MIN_ITEM_SIZE cache_path (dirSizeAt env.root cache_path)
        "safe" "browser_cache"
        (browser_name ++ " Cache (" ++ profile_dir ++ ")")
        (browser_name ++ " browser cache for profile " ++ profile_dir)))

/-- The Safari branch: the single cache directory plus the safe-browsing
blob store. -/
def scanSafari (env : ScanEnv) (browser_name base_path : String) : List Item :=
  gatedItem env MIN_ITEM_SIZE base_path (dirSizeAt env.root base_path)
    "safe" "browser_cache" (browser_name ++ " Cache")
    (browser_name ++ " browser cache and website data")
  ++ (let safari_websitedata := joinPath (joinPath env.library "Caches") "com.apple.Safari.SafeBrowsing"
      if ¬ isdir env.root safari_websitedata then []
      else gatedItem env MIN_ITEM_SIZE safari_websitedata (dirSizeAt env.root safari_websitedata)
        "safe" "browser_cache" "Safari Safe Browsing Data"
        "Safari safe browsing database cache")

/-- The Chrome-family branch: the `Default` profile plus every
`Profile N` directory, each with seven cache subdirectories. -/
def scanChromeFamily (env : ScanEnv) (browser_name base_path : String) : List Item :=
  let profiles := "Default" :: (listdir env.root base_path).filter
    (fun d => strStarts d "Profile " && isdir env.root (joinPath base_path d))
  profiles.flatMap (fun profile =>
    chromeCacheSubdirs.flatMap (fun cache_sub =>
      let cache_path := joinPath (joinPath base_path profile) cache_sub
      if ¬ isdir env.root cache_path then []
      else gatedItem env MIN_ITEM_SIZE cache_path (dirSizeAt env.root cache_path)
        "safe" "browser_cache"
        (browser_name ++ " " ++ cache_sub ++ " (" ++ profile ++ ")")
        (browser_name ++ " " ++ cache_sub ++ " for " ++ profile)))

/-- `scan_browser_caches` (storage_scanner.py:329-455). -/
def scan_browser_caches (env : ScanEnv) : List Item :=
  (browsers env).flatMap (fun nb =>
    if ¬ isdir env.root nb.2 then []
    else if nb.1 = "Firefox" then scanFirefox env nb.1 nb.2
    else if nb.1 = "Safari" then scanSafari env nb.1 nb.2
    else scanChromeFamily env nb.1 nb.2)

/- ── Phase 1: application caches (storage_scanner.py:665-720) ── -/

/-- The `app_targets` table: (name, path, description, risk), in source
order. -/
def app_targets (env : ScanEnv) : List (String × String × String × String) :=
  [ ("Spotify Cache", joinPath (joinPath env.library "Caches") "com.spotify.client", "Spotify streaming cache and offline data", "safe"),
    ("Spotify App Support", joinPath (joinPath (joinPath env.library "Application Support") "Spotify") "PersistentCache", "Spotify persistent cache data", "safe"),
    ("Slack Cache", joinPath (joinPath (joinPath env.library "Application Support") "Slack") "Cache", "Slack cached conversations and media", "safe"),
    ("Slack Service Worker", joinPath (joinPath (joinPath env.library "Application Support") "Slack") "Service Worker", "Slack service worker cache", "safe"),
    ("Discord Cache", joinPath (joinPath (joinPath env.library "Application Support") "discord") "Cache", "Discord cached messages and media", "safe"),
    ("Discord Code Cache", joinPath (joinPath (joinPath env.library "Application Support") "discord") "Code Cache", "Discord compiled code cache", "safe"),
    ("Adobe Creative Cloud Cache", joinPath (joinPath env.library "Caches") "Adobe", "Adobe application caches", "safe"),
    ("Adobe CC App Data", joinPath (joinPath (joinPath (joinPath env.library "Application Support") "Adobe") "Common") "Media Cache Files", "Adobe media cache files", "safe"),
    ("Xcode DerivedData", joinPath (joinPath (joinPath env.library "Developer") "Xcode") "DerivedData", "Compiled Xcode project build artifacts", "safe"),
    ("Xcode Archives", joinPath (joinPath (joinPath env.library "Developer") "Xcode") "Archives", "Xcode archived app builds", "caution"),
    ("Xcode Device Logs", joinPath (joinPath (joinPath env.library "Developer") "Xcode") "iOS DeviceSupport", "iOS device support files and symbols", "safe"),
    ("Xcode Simulators", joinPath (joinPath (joinPath env.library "Developer") "CoreSimulator") "Devices", "iOS Simulator installations and data", "caution"),
    ("Xcode Caches", joinPath (joinPath env.library "Caches") "com.apple.dt.Xcode", "Xcode internal caches", "safe"),
    ("VS Code Cache", joinPath (joinPath (joinPath env.library "Application Support") "Code") "Cache", "VS Code editor cache", "safe"),
    ("VS Code Cached Extensions", joinPath (joinPath (joinPath env.library "Application Support") "Code") "CachedExtensionVSIXs", "VS Code extension installation cache", "safe"),
    ("Teams Cache", joinPath (joinPath (joinPath env.library "Application Support") "Microsoft Teams") "Cache", "Microsoft Teams cache data", "safe"),
    ("Zoom Cache", joinPath (joinPath (joinPath env.library "Application Support") "zoom.us") "data", "Zoom cached data", "safe") ]

/-- `scan_app_caches` (storage_scanner.py:665-720): each existing target
directory is sized and reported with the table's hand-assigned risk. -/
def scan_app_caches (env : ScanEnv) : List Item :=
  (app_targets env).flatMap (fun t =>
    if ¬ isdir env.root t.2.1 then []
    else gatedItem env MIN_ITEM_SIZE t.2.1 (dirSizeAt env.root t.2.1)
      t.2.2.2 "app_cache" t.1 t.2.2.1)

/- ── Phase 1: system logs (storage_scanner.py:723-765) ── -/

/-- The `log_targets` table: (name, path, description, risk). -/
def log_targets (env : ScanEnv) : List (String × String × String × String) :=
  [ ("User Logs", joinPath env.library "Logs", "Application and system log files in ~/Library/Logs", "safe"),
    ("System Logs", "/var/log", "macOS system log files", "caution"),
    ("ASL Logs", "/private/var/log/asl", "Apple System Log files", "safe"),
    ("Diagnostic Reports", joinPath (joinPath env.library "Logs") "DiagnosticReports", "Crash reports and diagnostic data", "safe"),
    ("CoreSimulator Logs", joinPath (joinPath env.library "Logs") "CoreSimulator", "iOS Simulator log files", "safe") ]

/-- `scan_system_logs` (storage_scanner.py:723-765): a target is visited
when it is a directory or a plain file; directories are sized with the
probe, files with `os.path.getsize`. -/
def scan_system_logs (env : ScanEnv) : List Item :=
  (log_targets env).flatMap (fun t =>
    if ¬ isdir env.root t.2.1 && ¬ isfile env.root t.2.1 then []
    else
      let size := if isdir env.root t.2.1 then dirSizeAt env.root t.2.1
                  else getsize env.root t.2.1
      gatedItem env MIN_ITEM_SIZE t.2.1 size t.2.2.2 "system_logs" t.1 t.2.2.1)

/- ── Phase 1: mail, backups, snapshots, trash (storage_scanner.py:768-879) ── -/

/-- Whitespace as Python `str.strip` removes it. -/
def isSpaceChar (c : Char) : Bool :=
  c = ' ' || c = '\t' || c = '\n' || c = '\x0d' || c = '\x0b' || c = '\x0c'

/-- Python `s.strip()`. -/
def pyStrip (s : String) : String :=
  String.mk ((((chars s).dropWhile isSpaceChar).reverse.dropWhile isSpaceChar).reverse)

/-- Python `s.split("\n")`. -/
def splitLines (s : String) : List String :=
  ((chars s).splitOn '\n').map String.mk

/-- The snapshot lines parsed from `tmutil listlocalsnapshots /` output:
empty when the subprocess failed or printed only whitespace, otherwise the
non-blank lines of the stripped output. -/
def tmutilSnapshotLines (out : Option String) : List String :=
  match out with
  | none => []
  | some s =>
    if pyStrip s = "" then []
    else (splitLines (pyStrip s)).filter (fun l => pyStrip l ≠ "")

/-- The Mail-downloads directory with the container-path fallback
(storage_scanner.py:773-775). -/
def mailDownloadsPath (env : ScanEnv) : String :=
  let mail_primary := joinPath (joinPath (joinPath (joinPath (joinPath env.library "Containers") "com.apple.mail") "Data") "Library") "Mail Downloads"
  if ¬ isdir env.root mail_primary then joinPath env.library "Mail Downloads"
  else mail_primary

/-- `scan_mail_and_backups` (storage_scanner.py:768-879): Mail downloads
(with container fallback), the Time Machine snapshot pseudo-item (size 0:
"Can't easily determine size without root"), iOS backups, and the
Trash. -/
def scan_mail_and_backups (env : ScanEnv) : List Item :=
  let mail_downloads := mailDownloadsPath env
  (if ¬ isdir env.root mail_downloads then []
   else gatedItem env MIN_ITEM_SIZE mail_downloads (dirSizeAt env.root mail_downloads)
     "safe" "mail_backups" "Mail Downloads"
     "Email attachment downloads cached by Apple Mail")
  ++ (let snapshot_lines := tmutilSnapshotLines env.tmutil
      if snapshot_lines = [] then []
      else [{ path := "/System/Volumes/Data/.TimeMachine", size := 0,
              size_formatted := toString snapshot_lines.length ++ " snapshots",
              last_accessed := env.atime "/",
              risk := "caution", category := "mail_backups",
              name := "Time Machine Snapshots (" ++ toString snapshot_lines.length ++ ")",
              description := "Local Time Machine snapshots stored on this volume" }])
  ++ (let ios_backups := joinPath (joinPath (joinPath env.library "Application Support") "MobileSync") "Backup"
      if ¬ isdir env.root ios_backups then []
      else
        let size := dirSizeAt env.root ios_backups
        if ¬ (size > MIN_ITEM_SIZE) then []
        else
          let backup_count := ((listdir env.root ios_backups).filter
            (fun d => isdir env.root (joinPath ios_backups d))).length
          [mkItem env ios_backups size "caution" "mail_backups"
            ("iOS Device Backups (" ++ toString backup_count ++ " backup"
              ++ (if backup_count ≠ 1 then "s" else "") ++ ")")
            "Local backups of iPhones and iPads via Finder/iTunes"])
  ++ (let trash_path := joinPath env.home ".Trash"
      if ¬ isdir env.root trash_path then []
      else
        let size := dirSizeAt env.root trash_path
        if ¬ (size > MIN_ITEM_SIZE) then []
        else
          let trash_count := (listdir env.root trash_path).length
          [mkItem env trash_path size "safe" "mail_backups"
            ("Trash (" ++ toString trash_count ++ " items)")
            "Items in the macOS Trash that haven't been permanently deleted"])

/- ── Phase 2: developer caches (storage_scanner.py:458-662) ── -/

/-- The project roots searched for `node_modules`. -/
def node_search_paths (home : String) : List String :=
  [ joinPath home "Desktop", joinPath home "Documents", joinPath home "Projects",
    joinPath home "Developer", joinPath home "dev", joinPath home "code",
    joinPath home "repos", joinPath home "workspace", joinPath home "src" ]

/-- Names the deep walk never descends into (storage_scanner.py:563-566). -/
def noiseDirs : List String := ["node_modules", "__pycache__", ".git", "venv", ".venv"]

/-- One `os.walk(search_root, followlinks=False)` iteration with the
body of storage_scanner.py:538-566: compute the depth from the path
string, stop below depth 5, report a `node_modules` child and prune it,
then descend only into non-hidden, non-noise subdirectories. -/
def walkDev (env : ScanEnv) (search_root : String) (dirpath : String) : FSNode → List Item
  | FSNode.dir entries =>
    let depth := countSep (strReplace dirpath search_root "")
    if depth > 5 then []
    else
      let dirnames := (entries.filter (fun e => e.2.isDir)).map (·.1)
      let nmItems :=
        if "node_modules" ∈ dirnames then
          let nm_path := joinPath dirpath "node_modules"
          let size := match childNamed entries "node_modules" with
                      | some n => get_dir_size_fast n
                      | none => 0
          gatedItem env MIN_ITEM_SIZE nm_path size "safe" "dev_cache"
            ("node_modules (" ++ basename dirpath ++ ")")
            ("Node.js dependencies for " ++ basename dirpath)
        else []
      let keep := dirnames.filter
        (fun d => d ≠ "node_modules" && ¬ strStarts d "." && d ∉ noiseDirs)
      nmItems ++ entries.attach.flatMap (fun e =>
        if e.1.1 ∈ keep then walkDev env search_root (joinPath dirpath e.1.1) e.1.2
        else [])
  | _ => []
  termination_by n => sizeOf n
  decreasing_by
    obtain ⟨⟨n1, c1⟩, hmem⟩ := e
    have h := List.sizeOf_lt_of_mem hmem
    simp only [Prod.mk.sizeOf_spec] at h
    simp only [FSNode.dir.sizeOf_spec]
    omega

/-- The `node_modules` sweep of one search root: nothing when the root is
not a directory. -/
def scanNodeModulesRoot (env : ScanEnv) (search_root : String) : List Item :=
  match resolve env.root search_root with
  | some (FSNode.dir es) => walkDev env search_root search_root (FSNode.dir es)
  | _ => []

/-- The Go module cache path with the `GOPATH` fallback
(storage_scanner.py:628-633). -/
def goCachePath (env : ScanEnv) : String :=
  let go1 := joinPath (joinPath (joinPath (joinPath env.home "go") "pkg") "mod") "cache"
  if ¬ isdir env.root go1 && env.gopath ≠ "" then
    joinPath (joinPath (joinPath env.gopath "pkg") "mod") "cache"
  else go1

/-- `scan_dev_caches` (storage_scanner.py:458-662), in source order:
Docker Desktop data (only reached when `docker system df` succeeded with
output), the global npm cache, the `node_modules` walk over the project
roots, the pip cache, the Homebrew cache, the Cargo registry, and the Go
module cache (with `GOPATH` fallback). -/
def scan_dev_caches (env : ScanEnv) : List Item :=
  (if env.dockerDf then
    let docker_vm := joinPath (joinPath (joinPath env.library "Containers") "com.docker.docker") "Data"
    if ¬ isdir env.root docker_vm then []
    else gatedItem env MIN_ITEM_SIZE docker_vm (dirSizeAt env.root docker_vm)
      "caution" "dev_cache" "Docker Desktop Data"
      "Docker Desktop VM disk image, containers, volumes, and build cache"
   else [])
  ++ (let npm_cache := joinPath env.home ".npm"
      if ¬ isdir env.root npm_cache then []
      else gatedItem env MIN_ITEM_SIZE npm_cache (dirSizeAt env.root npm_cache)
        "safe" "dev_cache" "NPM Cache (~/.npm)" "Global NPM package cache")
  ++ (node_search_paths env.home).flatMap (scanNodeModulesRoot env)
  ++ (let pip_cache := joinPath (joinPath env.library "Caches") "pip"
      if ¬ isdir env.root pip_cache then []
      else gatedItem env MIN_ITEM_SIZE pip_cache (dirSizeAt env.root pip_cache)
        "safe" "dev_cache" "Python pip Cache" "Cached pip package downloads")
  ++ (let homebrew_cache := joinPath (joinPath env.library "Caches") "Homebrew"
      if ¬ isdir env.root homebrew_cache then []
      else gatedItem env MIN_ITEM_SIZE homebrew_cache (dirSizeAt env.root homebrew_cache)
        "safe" "dev_cache" "Homebrew Cache" "Homebrew downloaded packages and build artifacts")
  ++ (let cargo_registry := joinPath (joinPath env.home ".cargo") "registry"
      if ¬ isdir env.root cargo_registry then []
      else gatedItem env MIN_ITEM_SIZE cargo_registry (dirSizeAt env.root cargo_registry)
        "safe" "dev_cache" "Cargo Registry Cache" "Rust crate registry cache and source downloads")
  ++ (let go_cache := goCachePath env
      if ¬ isdir env.root go_cache then []
      else gatedItem env MIN_ITEM_SIZE go_cache (dirSizeAt env.root go_cache)
        "safe" "dev_cache" "Go Module Cache" "Go module download cache")

/- ── Phase 2: leftover general caches (storage_scanner.py:882-934) ── -/

/-- Cache-prefix skip list of the leftover sweep. -/
def already_scanned : List String :=
  [ "com.spotify.client", "com.apple.Safari", "com.apple.Safari.SafeBrowsing",
    "Adobe", "pip", "Homebrew", "com.apple.dt.Xcode",
    "com.google.Chrome", "com.microsoft.Edge", "com.brave.Browser" ]

/-- `scan_general_caches` (storage_scanner.py:882-934): every directory
entry of `~/Library/Caches` not matching a skip prefix, reported only when
its size exceeds 5 MiB. -/
def scan_general_caches (env : ScanEnv) : List Item :=
  let caches_root := joinPath env.library "Caches"
  if ¬ isdir env.root caches_root then []
  else (listdir env.root caches_root).flatMap (fun entry =>
    if already_scanned.any (fun pre => strStarts entry pre || entry = pre) then []
    else
      let entry_path := joinPath caches_root entry
      if ¬ isdir env.root entry_path then []
      else gatedItem env (5 * 1024 * 1024) entry_path (dirSizeAt env.root entry_path)
        "safe" "general_cache" ("Cache: " ++ entry)
        ("Application cache for " ++ entry))

/- ── The complete event's item list (storage_scanner.py:2067-2173) ── -/

/-- `all_items` as `run_scan` accumulates it, phase order as in the
source. -/
def all_items (env : ScanEnv) : List Item :=
  scan_browser_caches env ++ scan_app_caches env ++ scan_system_logs env
    ++ scan_mail_and_backups env ++ scan_dev_caches env ++ scan_general_caches env

/-- Descending-size order used by `all_items.sort(key=size, reverse=True)`. -/
def bySizeDesc (a b : Item) : Prop := b.size ≤ a.size

instance : DecidableRel bySizeDesc := fun a b =>
  inferInstanceAs (Decidable (b.size ≤ a.size))

/-- The `items` field of the `complete` event: `all_items` sorted by
descending size (storage_scanner.py:2100, 2163). -/
def completeItems (env : ScanEnv) : List Item :=
  List.insertionSort bySizeDesc (all_items env)

/- ── Attestation canonicalization (storage_scanner.py:1902-1914) ── -/

/-- Lexicographic code-point comparison of character lists — Python's
string `≤`. -/
def charListLe : List Char → List Char → Bool
  | [], _ => true
  | _ :: _, [] => false
  | a :: as, b :: bs =>
    if a.toNat < b.toNat then true
    else if b.toNat < a.toNat then false
    else charListLe as bs

/-- Python string comparison `a <= b`. -/
def pathLe (a b : String) : Bool := charListLe (chars a) (chars b)

/-- Ascending-path order used by `sorted(..., key=lambda x: x["path"])`. -/
def byPathAsc (a b : String × Nat) : Prop := pathLe a.1 b.1 = true

instance : DecidableRel byPathAsc := fun a b =>
  inferInstanceAs (Decidable (pathLe a.1 b.1 = true))

/-- JSON string escaping for the canonical serialization (quote and
backslash; other escapes never occur in the inputs of interest). -/
def jsonStr (s : String) : String :=
  "\"" ++ String.mk ((chars s).flatMap
    (fun c => if c = '"' then ['\\', '"']
              else if c = '\\' then ['\\', '\\'] else [c])) ++ "\""

/-- `json.dumps` of one projected item `{"path": ..., "size": ...}` with
`sort_keys=True` (so `path` precedes `size`) and default separators. -/
def serializeItemPair (pr : String × Nat) : String :=
  "\x7b" ++ jsonStr "path" ++ ": " ++ jsonStr pr.1 ++ ", "
    ++ jsonStr "size" ++ ": " ++ toString pr.2 ++ "\x7d"

/-- The canonical content bytes built by `sign_scan_results`
(storage_scanner.py:1909-1913): project every item to `(path, size)`,
stable-sort by path ascending, serialize as a JSON list. -/
def attestation_content (items : List Item) : String :=
  "[" ++ String.intercalate ", "
    ((List.insertionSort byPathAsc (items.map (fun i => (i.path, i.size)))).map
      serializeItemPair) ++ "]"

/-- `content_hash` of the attestation: SHA-256 (abstracted as `sha256`)
of the canonical content. -/
def content_hash (sha256 : String → String) (items : List Item) : String :=
  sha256 (attestation_content items)

/-- The fields of the `complete` event the attestation claims touch:
`run_scan` signs `all_items` after the final size sort and embeds the very
same list as the event's `items` (storage_scanner.py:2100, 2125, 2163,
2166). -/
structure CompleteEvent where
  items : List Item
  attestation_content_hash : String

/-- The `complete` event as `run_scan` builds it (attestation part). -/
def complete_event (sha256 : String → String) (env : ScanEnv) : CompleteEvent :=
  { items := completeItems env,
    attestation_content_hash := content_hash sha256 (completeItems env) }

/- ── Recommender (storage_scanner.py:1635-1738) ── -/

/-- A cleanable artifact directory of a stale project
(storage_scanner.py:1590-1596). -/
structure CleanableDir where
  name : String
  description : String
  path : String
  bytes : Nat
  formatted : String
deriving DecidableEq

/-- A stale project as `detect_stale_projects` emits it
(storage_scanner.py:1603-1612). -/
structure StaleProject where
  path : String
  name : String
  last_accessed : String
  days_stale : Nat
  reclaimable_bytes : Nat
  reclaimable_formatted : String
  cleanable_dirs : List CleanableDir
  markers : List String
deriving DecidableEq

/-- A recommendation dict (storage_scanner.py:1638-1640); the two extra
keys of dev-cleanup recommendations are optional fields. -/
structure Recommendation where
  id : String
  title : String
  description : String
  category : String
  impact_bytes : Nat
  impact_formatted : String
  confidence : ℚ
  risk : String
  items : List String
  action_type : String
  project_path : Option String := none
  days_stale : Option Nat := none
deriving DecidableEq

/-- The two fields of `disk_map` the recommender reads
(`disk_map.get("disk_free", 0)`, `disk_map.get("disk_total", 1)`;
`scan_full_disk` always sets both). -/
structure DiskMap where
  disk_free : Nat
  disk_total : Nat
deriving DecidableEq

/-- Presentation and hashing oracles of the recommender: the first 8 hex
characters of an MD5 digest, `format_size`, and the one-decimal percent
rendering — none of them constrained by any claim. -/
structure RecOracles where
  md5_8 : String → String
  fmt : Nat → String
  pct1 : ℚ → String

/-- `category_labels` (storage_scanner.py:1687-1693). -/
def category_labels : List (String × String) :=
  [ ("browser_cache", "browser caches"), ("dev_cache", "developer caches"),
    ("app_cache", "application caches"), ("system_logs", "system logs"),
    ("general_cache", "general caches") ]

/-- `category_labels.get(cat_id, cat_id)`. -/
def labelOf (cat_id : String) : String :=
  ((category_labels.find? (fun e => e.1 = cat_id)).map (·.2)).getD cat_id

/-- Append an item to its category group, keeping the first-occurrence
key order of a Python dict. -/
def addToGroup : List (String × List Item) → String → Item → List (String × List Item)
  | [], c, i => [(c, [i])]
  | (k, l) :: rest, c, i =>
    if k = c then (k, l ++ [i]) :: rest else (k, l) :: addToGroup rest c i

/-- `cat_groups` (storage_scanner.py:1682-1685): small safe items grouped
by category. -/
def cat_groups (items : List Item) : List (String × List Item) :=
  items.foldl (fun acc item =>
    if item.size < 500 * 1024 * 1024 && item.risk = "safe" then
      addToGroup acc item.category item
    else acc) []

/-- The quick-win recommendation for one large safe item
(storage_scanner.py:1645-1658). -/
def quickWinRec (g : RecOracles) (item : Item) : Recommendation :=
  { id := "quick_" ++ g.md5_8 item.path,
    title := "Remove " ++ item.name,
    description := item.description ++ " — " ++ g.fmt item.size,
    category := "quick_wins",
    impact_bytes := item.size,
    impact_formatted := g.fmt item.size,
    confidence := if item.risk = "safe" then mkRat 95 100 else mkRat 7 10,
    risk := item.risk,
    items := [item.path],
    action_type := "delete" }

/-- The dev-cleanup recommendation for one stale project
(storage_scanner.py:1661-1678). -/
def devCleanupRec (g : RecOracles) (proj : StaleProject) : Recommendation :=
  { id := "stale_" ++ g.md5_8 proj.path,
    title := "Clean stale project: " ++ proj.name,
    description := "Not accessed in " ++ toString proj.days_stale ++ " days. Remove "
      ++ String.intercalate ", " ((proj.cleanable_dirs.take 3).map (·.name))
      ++ " to free " ++ proj.reclaimable_formatted,
    category := "dev_cleanup",
    impact_bytes := proj.reclaimable_bytes,
    impact_formatted := proj.reclaimable_formatted,
    confidence := mkRat 85 100,
    risk := "safe",
    items := proj.cleanable_dirs.map (·.path),
    action_type := "delete",
    project_path := some proj.path,
    days_stale := some proj.days_stale }

/-- The maintenance batch recommendation for one category group
(storage_scanner.py:1695-1711). -/
def batchRec (g : RecOracles) (cat_id : String) (cat_items : List Item) : Recommendation :=
  let total := (cat_items.map (·.size)).sum
  { id := "batch_" ++ cat_id,
    title := "Clear all " ++ labelOf cat_id,
    description := toString cat_items.length ++ " items totaling " ++ g.fmt total
      ++ ". All marked as safe to delete.",
    category := "maintenance",
    impact_bytes := total,
    impact_formatted := g.fmt total,
    confidence := mkRat 9 10,
    risk := "safe",
    items := cat_items.map (·.path),
    action_type := "delete" }

/-- The exact-arithmetic form of `free_pct < 10` where
`free_pct = disk_free / disk_total * 100` when `disk_total > 0` and 100
otherwise (storage_scanner.py:1714-1718). -/
def freePctLt10 (disk : DiskMap) : Bool :=
  decide (0 < disk.disk_total ∧ 100 * disk.disk_free < 10 * disk.disk_total)

/-- `free_pct` itself, over `ℚ` (used only in the urgent description). -/
def freePct (disk : DiskMap) : ℚ :=
  if 0 < disk.disk_total then
    (disk.disk_free : ℚ) / (disk.disk_total : ℚ) * 100
  else 100

/-- The urgent recommendation inserted at position 0 when disk space is
critically low (storage_scanner.py:1718-1732). -/
def urgentRec (g : RecOracles) (items : List Item) (disk : DiskMap) : Recommendation :=
  let total_cleanable := ((items.filter (fun i => i.risk = "safe")).map (·.size)).sum
  { id := "urgent_space",
    title := "⚠️ Disk space critically low",
    description := "Only " ++ g.fmt disk.disk_free ++ " free ("
      ++ g.pct1 (freePct disk) ++ "%). Clean safe items to reclaim "
      ++ g.fmt total_cleanable ++ ".",
    category := "urgent",
    impact_bytes := total_cleanable,
    impact_formatted := g.fmt total_cleanable,
    confidence := (1 : ℚ),
    risk := "safe",
    items := (items.filter (fun i => i.risk = "safe")).map (·.path),
    action_type := "delete" }

/-- `priority_order.get(category, 5)` (storage_scanner.py:1735). -/
def priorityOf (c : String) : Nat :=
  if c = "urgent" then 0
  else if c = "quick_wins" then 1
  else if c = "dev_cleanup" then 2
  else if c = "maintenance" then 3
  else if c = "media_management" then 4
  else 5

/-- The sort key order of storage_scanner.py:1736: ascending category
priority, then descending impact. -/
def recOrder (a b : Recommendation) : Prop :=
  priorityOf a.category < priorityOf b.category ∨
    (priorityOf a.category = priorityOf b.category ∧ b.impact_bytes ≤ a.impact_bytes)

instance : DecidableRel recOrder := fun a b =>
  inferInstanceAs (Decidable (priorityOf a.category < priorityOf b.category ∨
    (priorityOf a.category = priorityOf b.category ∧ b.impact_bytes ≤ a.impact_bytes)))

/-- The quick-wins block (storage_scanner.py:1645-1658). -/
def quickWinRecs (g : RecOracles) (items : List Item) : List Recommendation :=
  items.flatMap (fun item =>
    if item.size > 500 * 1024 * 1024 && item.risk = "safe" then [quickWinRec g item]
    else [])

/-- The dev-cleanup block (storage_scanner.py:1661-1678). -/
def devCleanupRecs (g : RecOracles) (stale : List StaleProject) : List Recommendation :=
  stale.flatMap (fun proj =>
    if proj.reclaimable_bytes > 50 * 1024 * 1024 then [devCleanupRec g proj] else [])

/-- The maintenance block (storage_scanner.py:1695-1711). -/
def batchRecs (g : RecOracles) (items : List Item) : List Recommendation :=
  (cat_groups items).flatMap (fun grp =>
    if (grp.2.map (·.size)).sum > 100 * 1024 * 1024 then [batchRec g grp.1 grp.2]
    else [])

/-- `recs` before the urgent insertion and the sort. -/
def baseRecs (g : RecOracles) (items : List Item) (stale : List StaleProject) :
    List Recommendation :=
  quickWinRecs g items ++ devCleanupRecs g stale ++ batchRecs g items

/-- `build_recommendations` (storage_scanner.py:1635-1738). -/
def build_recommendations (g : RecOracles) (items : List Item) (disk : DiskMap)
    (stale : List StaleProject) : List Recommendation :=
  List.insertionSort recOrder
    (if freePctLt10 disk then urgentRec g items disk :: baseRecs g items stale
     else baseRecs g items stale)

/- ── Growth prediction (storage_scanner.py:1765-1797) ── -/

/-- One timeline row (`scan_time`, `total_bytes`); the ISO timestamp is
modelled as the numeric instant (in seconds) it parses to, so that
`datetime` subtraction becomes rational subtraction. -/
structure TimelineEntry where
  scan_time : ℚ
  total_bytes : ℤ
deriving DecidableEq

/-- The prediction dict (storage_scanner.py:1789-1795); the formatted
rate string is presentation-only and omitted. -/
structure Prediction where
  days_until_full : ℤ
  growth_rate_bytes_per_day : ℤ
  data_points : Nat
  span_days : ℚ
deriving DecidableEq

/-- Python `round` on an exact value: round-half-to-even. -/
def pyRound (q : ℚ) : ℤ :=
  let f := ⌊q⌋
  let r := q - f
  if r < 1 / 2 then f
  else if 1 / 2 < r then f + 1
  else if f % 2 = 0 then f else f + 1

/-- Python `round(q, 1)`. -/
def pyRound1 (q : ℚ) : ℚ := (pyRound (10 * q) : ℚ) / 10

/-- `predict_space_exhaustion` (storage_scanner.py:1765-1797). -/
def predict_space_exhaustion (timeline : List TimelineEntry) (disk_free : ℤ) :
    Option Prediction :=
  match timeline with
  | t0 :: t1 :: rest =>
    let tlast := List.getLastD (t1 :: rest) t0
    let days_span : ℚ := max ((tlast.scan_time - t0.scan_time) / 86400) (1 / 100)
    let growth : ℤ := tlast.total_bytes - t0.total_bytes
    if growth ≤ 0 ∨ days_span < 1 / 10 then none
    else
      let rate_per_day : ℚ := (growth : ℚ) / days_span
      let days_until_full : ℚ :=
        if 0 < rate_per_day then (disk_free : ℚ) / rate_per_day else -1
      some { days_until_full := pyRound days_until_full,
             growth_rate_bytes_per_day := pyRound rate_per_day,
             data_points := timeline.length,
             span_days := pyRound1 days_span }
  | _ => none

/-- The growth (bytes) between the first and last timeline rows — the
`growth` local of `predict_space_exhaustion`. -/
def timelineGrowth (t0 t1 : TimelineEntry) (rest : List TimelineEntry) : ℤ :=
  (List.getLastD (t1 :: rest) t0).total_bytes - t0.total_bytes

/-- The clamped day span between the first and last timeline rows — the
`days_span` local of `predict_space_exhaustion`. -/
def timelineSpan (t0 t1 : TimelineEntry) (rest : List TimelineEntry) : ℚ :=
  max (((List.getLastD (t1 :: rest) t0).scan_time - t0.scan_time) / 86400) (1 / 100)

/- ── Concrete environments used to evaluate the code at specific inputs ── -/

/-- A purge environment for the home directory `/Users/bob` in which every
path exists and is its own real path (no symlinks anywhere). -/
def purgeEnvA : PurgeEnv :=
  { user_home := "/Users/bob", rp := id, ex := fun _ => true,
    size := fun _ => 0, delOk := fun _ => true }

/-- A filesystem containing exactly
`/Users/u/Library/Application Support/Spotify/PersistentCache` (a
directory holding one 4096-byte file). -/
def envSpotify : ScanEnv :=
  { root := FSNode.dir [("Users", FSNode.dir [("u", FSNode.dir [("Library",
      FSNode.dir [("Application Support", FSNode.dir [("Spotify",
        FSNode.dir [("PersistentCache", FSNode.dir [("f", FSNode.file 4096)])])])])])])],
    home := "/Users/u", gopath := "", tmutil := none, dockerDf := false,
    atime := fun _ => "", fmt := fun _ => "" }

/-- An empty filesystem in which `tmutil listlocalsnapshots /` reports one
local snapshot. -/
def envSnapshot : ScanEnv :=
  { root := FSNode.dir [], home := "/Users/u", gopath := "",
    tmutil := some "com.apple.TimeMachine.2024-01-01.local\n",
    dockerDf := false, atime := fun _ => "", fmt := fun _ => "" }

/-- A filesystem containing exactly `/Users/u/Library/Caches/SomeApp`, a
6 MiB cache directory picked up by the leftover general-cache sweep. -/
def envGeneralCache : ScanEnv :=
  { root := FSNode.dir [("Users", FSNode.dir [("u", FSNode.dir [("Library",
      FSNode.dir [("Caches",
        FSNode.dir [("SomeApp", FSNode.dir [("blob", FSNode.file (6 * 1024 * 1024))])])])])])],
    home := "/Users/u", gopath := "", tmutil := none, dockerDf := false,
    atime := fun _ => "", fmt := fun _ => "" }

/-- Two items sharing the path `"a"` with different sizes (all other
fields irrelevant to the attestation). -/
def attItemA : Item :=
  { path := "a", size := 1, size_formatted := "", last_accessed := "",
    risk := "safe", category := "general_cache", name := "n", description := "d" }

/-- Companion of `attItemA` with the same path and a different size. -/
def attItemB : Item :=
  { path := "a", size := 2, size_formatted := "", last_accessed := "",
    risk := "safe", category := "general_cache", name := "n", description := "d" }

/-- A third attestation item with a distinct path `"b"`. -/
def attItemC : Item :=
  { path := "b", size := 3, size_formatted := "", last_accessed := "",
    risk := "safe", category := "general_cache", name := "n", description := "d" }

/-- Recommender oracles whose hash and formatting outputs are constant —
the claims under test must not depend on them. -/
def constOracles : RecOracles :=
  { md5_8 := fun _ => "", fmt := fun _ => "", pct1 := fun _ => "" }

/-- A 600 MiB safe item (a quick-win candidate). -/
def bigSafeItem : Item :=
  { path := "/Users/u/.npm", size := 600 * 1024 * 1024, size_formatted := "",
    last_accessed := "", risk := "safe", category := "dev_cache",
    name := "NPM Cache (~/.npm)", description := "Global NPM package cache" }

/-- A 2000-byte safe item (feeds the urgent recommendation only). -/
def smallSafeItem : Item :=
  { path := "/Users/u/Library/Caches/SomeApp", size := 2000, size_formatted := "",
    last_accessed := "", risk := "safe", category := "general_cache",
    name := "Cache: SomeApp", description := "Application cache for SomeApp" }

/-- A stale project whose single cleanable artifact is the path of
`bigSafeItem`. -/
def staleProj : StaleProject :=
  { path := "/Users/u/proj", name := "proj", last_accessed := "2024-01-01",
    days_stale := 120, reclaimable_bytes := 60 * 1024 * 1024,
    reclaimable_formatted := "60 MB",
    cleanable_dirs := [{ name := "node_modules", description := "Node.js dependencies",
                         path := "/Users/u/.npm", bytes := 60 * 1024 * 1024,
                         formatted := "60 MB" }],
    markers := [".git"] }

/-- A disk with ample free space (no urgent recommendation). -/
def roomyDisk : DiskMap := { disk_free := 50, disk_total := 100 }

/-- A disk with under 10% free space. -/
def lowDisk : DiskMap := { disk_free := 5, disk_total := 100 }

/- ── Order instances for the two sort relations ── -/

instance : IsTotal (String × Nat) byPathAsc :=
  ⟨fun a b => by
    unfold byPathAsc pathLe
    generalize chars a.1 = as
    generalize chars b.1 = bs
    induction as generalizing bs with
    | nil => left; rfl
    | cons c cs ih =>
      cases bs with
      | nil => right; rfl
      | cons d ds =>
        rcases Nat.lt_trichotomy c.toNat d.toNat with h | h | h
        · left; simp [charListLe, h]
        · rcases ih ds with h2 | h2
          · left; simp [charListLe, h, h2]
          · right; simp [charListLe, h.symm, h2]
        · right; simp [charListLe, h]⟩

instance : IsTrans (String × Nat) byPathAsc :=
  ⟨fun a b c hab hbc => by
    unfold byPathAsc pathLe at *
    revert hab hbc
    generalize chars a.1 = as
    generalize chars b.1 = bs
    generalize chars c.1 = cs
    intro hab hbc
    induction as generalizing bs cs with
    | nil => rfl
    | cons x xs ih =>
      cases bs with
      | nil => simp [charListLe] at hab
      | cons y ys =>
        cases cs with
        | nil => simp [charListLe] at hbc
        | cons z zs =>
          simp only [charListLe] at hab hbc ⊢
          rcases Nat.lt_trichotomy x.toNat y.toNat with h1 | h1 | h1 <;>
            rcases Nat.lt_trichotomy y.toNat z.toNat with h2 | h2 | h2 <;>
            simp_all <;> first
            | omega
            | exact ih ys zs hab hbc⟩

instance : IsTotal Recommendation recOrder :=
  ⟨fun a b => by unfold recOrder; omega⟩

instance : IsTrans Recommendation recOrder :=
  ⟨fun a b c hab hbc => by unfold recOrder at *; omega⟩

instance : IsTotal Item bySizeDesc :=
  ⟨fun a b => by unfold bySizeDesc; omega⟩

instance : IsTrans Item bySizeDesc :=
  ⟨fun a b c hab hbc => by unfold bySizeDesc at *; omega⟩

/- ═══════════════════  Theorems  ═══════════════════ -/

/- Helper lemmas shared by the claim theorems. -/

/-- Membership in a size-gated item singleton. -/
theorem mem_gatedItem {env : ScanEnv} {th : Nat} {p : String} {sz : Nat}
    {r c n d : String} {i : Item} :
    i ∈ gatedItem env th p sz r c n d ↔ th < sz ∧ i = mkItem env p sz r c n d := by
  unfold gatedItem
  by_cases h : sz > th
  · rw [if_pos h]
    simp only [List.mem_singleton]
    exact ⟨fun he => ⟨h, he⟩, fun he => he.2⟩
  · rw [if_neg h]
    simp only [List.not_mem_nil, false_iff]
    rintro ⟨hlt, _⟩
    exact h hlt

/-- Absoluteness is preserved by appending to the right. -/
theorem absPath_append {a : String} (b : String) (h : absPath a = true) :
    absPath (a ++ b) = true := by
  unfold absPath chars at *
  rw [String.data_append, decide_eq_true_eq]
  rw [decide_eq_true_eq] at h
  cases ha : a.data with
  | nil => rw [ha] at h; simp at h
  | cons x xs => rw [ha] at h; simpa using h

/-- Absoluteness is preserved by `os.path.join` with a relative component. -/
theorem absPath_joinPath {a : String} (b : String) (h : absPath a = true) :
    absPath (joinPath a b) = true := by
  unfold joinPath
  exact absPath_append b (absPath_append "/" h)

/-- Claim C10: every item produced by the leftover general-cache sweep of
`~/Library/Caches` has size strictly greater than 5 MiB — a stricter
threshold than the global 1 KiB minimum — and category `general_cache`. -/
theorem c10_general_cache_threshold (env : ScanEnv) (i : Item) (hi : i ∈ scan_general_caches env) :
    5 * 1024 * 1024 < i.size ∧ i.category = "general_cache" := by
  simp only [scan_general_caches] at hi
  split at hi
  · simp at hi
  · rw [List.mem_flatMap] at hi
    obtain ⟨entry, _, hin⟩ := hi
    split at hin
    · simp at hin
    · split at hin
      · simp at hin
      · rw [mem_gatedItem] at hin
        rcases hin with ⟨hlt, rfl⟩
        exact ⟨hlt, rfl⟩

/-- Witness for C10 at the concrete environment `envGeneralCache`. -/
theorem c10_general_cache_threshold_witness :
    (mkItem envGeneralCache "/Users/u/Library/Caches/SomeApp" (6 * 1024 * 1024)
        "safe" "general_cache" "Cache: SomeApp" "Application cache for SomeApp")
      ∈ scan_general_caches envGeneralCache
    ∧ 5 * 1024 * 1024
        < (mkItem envGeneralCache "/Users/u/Library/Caches/SomeApp" (6 * 1024 * 1024)
            "safe" "general_cache" "Cache: SomeApp" "Application cache for SomeApp").size :=
  ⟨by decide, (c10_general_cache_threshold envGeneralCache _ (by decide)).1⟩

/-- Claim C1 (code evaluation at the failing input): with home `/Users/bob`, the
candidate `/Users/bobby/node_modules` — an existing directory that is its own
real path, lies outside the user's home and outside every safe zone — is
accepted by the validation loop and deleted, because the always-safe branch
tests `real_path.startswith(user_home)` without a separator.  `specZoneOk`
states the claim's acceptance condition in the claim's own words; the code
accepts while that condition is false. -/
theorem c1_always_safe_outside_home_accepted :
    validate_paths purgeEnvA ["/Users/bobby/node_modules"] = ["/Users/bobby/node_modules"]
    ∧ specZoneOk purgeEnvA "/Users/bobby/node_modules" = false
    ∧ liesUnderHome purgeEnvA.user_home (purgeEnvA.rp "/Users/bobby/node_modules") = false
    ∧ generate_cleanup_script purgeEnvA ["/Users/bobby/node_modules"]
        = PurgeResult.success 1 0 ["/Users/bobby/node_modules"] := by
  refine ⟨by decide, by decide, by decide, by decide⟩

/-- Claim C2: any path whose resolved real path equals a `FORBIDDEN_PATHS` entry
is never validated and never deleted; and the input `["/Users"]` (whose real
path is itself) produces exactly the error document
`status: error, message: "No valid or safe paths provided for deletion."`
with nothing deleted. -/
theorem c2_forbidden_paths_refused :
    (∀ (env : PurgeEnv) (ps : List String) (r : String),
        r ∈ FORBIDDEN_PATHS env.user_home →
        r ∉ validate_paths env ps ∧ r ∉ (generate_cleanup_script env ps).deletedPaths)
    ∧ (∀ env : PurgeEnv, env.rp "/Users" = "/Users" →
        generate_cleanup_script env ["/Users"]
          = PurgeResult.error "No valid or safe paths provided for deletion.") := by
  constructor
  · intro env ps r hforb
    have hval : r ∉ validate_paths env ps := by
      intro hmem
      rw [validate_paths, List.mem_filterMap] at hmem
      obtain ⟨p, _, hp⟩ := hmem
      simp only [validateOne] at hp
      split at hp
      · exact absurd hp (by simp)
      · split at hp
        · exact absurd hp (by simp)
        · split at hp
          · rename_i hex hnf _
            rw [Option.some_inj] at hp
            rw [hp] at hnf
            exact hnf hforb
          · split at hp
            · rename_i hex hnf _ _
              rw [Option.some_inj] at hp
              rw [hp] at hnf
              exact hnf hforb
            · exact absurd hp (by simp)
    refine ⟨hval, ?_⟩
    intro hdel
    simp only [generate_cleanup_script] at hdel
    split at hdel
    · simp [PurgeResult.deletedPaths] at hdel
    · simp only [PurgeResult.deletedPaths] at hdel
      exact hval (List.mem_of_mem_filter hdel)
  · intro env hrp
    have h1 : validateOne env "/Users" = none := by
      simp only [validateOne]
      rw [hrp]
      have hf : "/Users" ∈ FORBIDDEN_PATHS env.user_home := by
        unfold FORBIDDEN_PATHS
        simp
      split
      · rfl
      · rfl
    simp [generate_cleanup_script, validate_paths, h1]

/-- Witness for C2 at the concrete environment `purgeEnvA`. -/
theorem c2_forbidden_paths_refused_witness :
    ("/Users" ∈ FORBIDDEN_PATHS purgeEnvA.user_home
      ∧ "/Users" ∉ validate_paths purgeEnvA ["/tmp", "/Users"])
    ∧ (purgeEnvA.rp "/Users" = "/Users"
      ∧ generate_cleanup_script purgeEnvA ["/Users"]
          = PurgeResult.error "No valid or safe paths provided for deletion.") :=
  ⟨⟨by decide, (c2_forbidden_paths_refused.1 purgeEnvA ["/tmp", "/Users"] "/Users" (by decide)).1⟩,
   ⟨by decide, c2_forbidden_paths_refused.2 purgeEnvA (by decide)⟩⟩

/-- Claim C4 counterexample: the `Spotify App Support` item produced by
`scan_app_caches` carries the hand-assigned risk `safe`, while `classify_risk`
returns `caution` on its path (it contains `/Application Support/`). -/
theorem c4_risk_mismatch_counterexample :
    (scan_app_caches envSpotify).map (fun i => (i.risk, classify_risk i.path))
      = [("safe", "caution")] := by decide

/-- Claim C4 (amended): every item of `scan_app_caches` is built from a row of
the hand-maintained `app_targets` table, and its `risk` field is that row's
hand-assigned risk — not in general `classify_risk` of its path. -/
theorem c4_risk_from_scanner_table (env : ScanEnv) (i : Item) (hi : i ∈ scan_app_caches env) :
    ∃ t ∈ app_targets env,
      i = mkItem env t.2.1 (dirSizeAt env.root t.2.1) t.2.2.2 "app_cache" t.1 t.2.2.1
      ∧ i.risk = t.2.2.2 ∧ i.path = t.2.1 := by
  simp only [scan_app_caches] at hi
  rw [List.mem_flatMap] at hi
  obtain ⟨t, ht, hin⟩ := hi
  split at hin
  · simp at hin
  · rw [mem_gatedItem] at hin
    rcases hin with ⟨_, rfl⟩
    exact ⟨t, ht, rfl, rfl, rfl⟩

/-- Witness for C4 at the concrete environment `envSpotify`. -/
theorem c4_risk_from_scanner_table_witness :
    (mkItem envSpotify "/Users/u/Library/Application Support/Spotify/PersistentCache"
        4096 "safe" "app_cache" "Spotify App Support" "Spotify persistent cache data")
      ∈ scan_app_caches envSpotify
    ∧ ∃ t ∈ app_targets envSpotify,
        (mkItem envSpotify "/Users/u/Library/Application Support/Spotify/PersistentCache"
          4096 "safe" "app_cache" "Spotify App Support" "Spotify persistent cache data").risk
          = t.2.2.2 :=
  ⟨by decide,
   match c4_risk_from_scanner_table envSpotify _ (by decide) with
   | ⟨t, ht, _, hrisk, _⟩ => ⟨t, ht, hrisk⟩⟩

/-- Code-point comparison is antisymmetric. -/
theorem charListLe_antisymm : ∀ (as bs : List Char),
    charListLe as bs = true → charListLe bs as = true → as = bs := by
  intro as
  induction as with
  | nil =>
    intro bs _ hba
    cases bs with
    | nil => rfl
    | cons y ys => simp [charListLe] at hba
  | cons x xs ih =>
    intro bs hab hba
    cases bs with
    | nil => simp [charListLe] at hab
    | cons y ys =>
      simp only [charListLe] at hab hba
      rcases Nat.lt_trichotomy x.toNat y.toNat with h | h | h
      · simp [h, Nat.not_lt.mpr (Nat.le_of_lt h)] at hba
      · have hxy : x = y := Char.ext (UInt32.ext h)
        subst hxy
        simp only [Nat.lt_irrefl, if_false] at hab hba
        rw [ih ys hab hba]
      · simp [h, Nat.not_lt.mpr (Nat.le_of_lt h)] at hab

/-- Two pairs below each other in the path order share their path. -/
theorem byPathAsc_antisymm_fst {a b : String × Nat}
    (hab : byPathAsc a b) (hba : byPathAsc b a) : a.1 = b.1 := by
  unfold byPathAsc pathLe at hab hba
  exact String.ext (charListLe_antisymm _ _ hab hba)

/-- Two path-sorted permutations of each other with pairwise-distinct paths are equal — the heart of the attestation permutation invariance. -/
theorem sorted_perm_nodup_key_eq : ∀ (l₁ l₂ : List (String × Nat)),
    l₁.Perm l₂ → List.Sorted byPathAsc l₁ → List.Sorted byPathAsc l₂ →
    (l₁.map Prod.fst).Nodup → l₁ = l₂ := by
  intro l₁
  induction l₁ with
  | nil =>
    intro l₂ hp _ _ _
    exact (hp.nil_eq).symm ▸ rfl
  | cons a t ih =>
    intro l₂ hp hs₁ hs₂ hnd
    cases l₂ with
    | nil => exact absurd hp.symm (by simp)
    | cons b t₂ =>
      have hamem : a ∈ b :: t₂ := hp.mem_iff.mp (List.mem_cons_self a t)
      have hab : a = b := by
        rcases List.mem_cons.mp hamem with h | hat₂
        · exact h
        · have hbmem : b ∈ a :: t := hp.symm.mem_iff.mp (List.mem_cons_self b t₂)
          rcases List.mem_cons.mp hbmem with h | hbt
          · exact h.symm
          · have h1 : byPathAsc a b := List.rel_of_sorted_cons hs₁ b hbt
            have h2 : byPathAsc b a := List.rel_of_sorted_cons hs₂ a hat₂
            have hfst : a.1 = b.1 := byPathAsc_antisymm_fst h1 h2
            exfalso
            have : a.1 ∈ t.map Prod.fst := by
              rw [hfst]; exact List.mem_map_of_mem Prod.fst hbt
            simp only [List.map_cons, List.nodup_cons] at hnd
            exact hnd.1 this
      subst hab
      have hpt : t.Perm t₂ := hp.cons_inv
      have := ih t₂ hpt hs₁.of_cons hs₂.of_cons (by
        simp only [List.map_cons, List.nodup_cons] at hnd
        exact hnd.2)
      rw [this]

/-- Claim C5 counterexample: two items sharing a path with different sizes.
Swapping them is a permutation of the item list, yet the canonical content —
and hence the content hash for any hash function, here the identity —
changes, because the canonicalization sorts by path only and the stable sort
preserves the input order of equal paths. -/
theorem c5_duplicate_path_counterexample :
    List.Perm [attItemA, attItemB] [attItemB, attItemA]
    ∧ content_hash id [attItemA, attItemB] ≠ content_hash id [attItemB, attItemA] :=
  ⟨List.Perm.swap _ _ _, by decide⟩

/-- Claim C5 (amended): the attestation's `content_hash` is invariant under any
permutation of the item list whose items have pairwise-distinct paths, and
re-computing the content hash from the items of a `complete` event yields
exactly the recorded `content_hash` (the event's items are the very list that
was signed). -/
theorem c5_content_hash_canonicalization :
    (∀ (sha256 : String → String) (items items' : List Item),
        items.Perm items' → (items.map (fun i => i.path)).Nodup →
        content_hash sha256 items = content_hash sha256 items')
    ∧ (∀ (sha256 : String → String) (env : ScanEnv),
        content_hash sha256 (complete_event sha256 env).items
          = (complete_event sha256 env).attestation_content_hash) := by
  constructor
  · intro sha items items' hperm hnd
    have key : List.insertionSort byPathAsc (items.map (fun i => (i.path, i.size)))
        = List.insertionSort byPathAsc (items'.map (fun i => (i.path, i.size))) := by
      apply sorted_perm_nodup_key_eq
      · exact ((List.perm_insertionSort _ _).trans (hperm.map _)).trans
          (List.perm_insertionSort _ _).symm
      · exact List.sorted_insertionSort byPathAsc _
      · exact List.sorted_insertionSort byPathAsc _
      · have h1 := (List.perm_insertionSort byPathAsc
          (items.map (fun i => (i.path, i.size)))).map Prod.fst
        rw [List.map_map] at h1
        simp only [Function.comp_def] at h1
        exact h1.nodup_iff.mpr hnd
    unfold content_hash attestation_content
    rw [key]
  · intro sha env
    rfl

/-- Every non-urgent recommendation has category priority at least 1. -/
theorem baseRecs_priority_pos (g : RecOracles) (items : List Item)
    (stale : List StaleProject) (r : Recommendation) (hr : r ∈ baseRecs g items stale) :
    1 ≤ priorityOf r.category := by
  unfold baseRecs at hr
  rcases List.mem_append.mp hr with hr | hr
  · rcases List.mem_append.mp hr with hr | hr
    · unfold quickWinRecs at hr
      rw [List.mem_flatMap] at hr
      obtain ⟨item, _, hin⟩ := hr
      split at hin
      · rcases List.mem_singleton.mp hin with rfl
        simp [quickWinRec, priorityOf]
      · simp at hin
    · unfold devCleanupRecs at hr
      rw [List.mem_flatMap] at hr
      obtain ⟨proj, _, hin⟩ := hr
      split at hin
      · rcases List.mem_singleton.mp hin with rfl
        simp [devCleanupRec, priorityOf]
      · simp at hin
  · unfold batchRecs at hr
    rw [List.mem_flatMap] at hr
    obtain ⟨grp, _, hin⟩ := hr
    split at hin
    · rcases List.mem_singleton.mp hin with rfl
      simp [batchRec, priorityOf]
    · simp at hin

/-- Claim C7: the recommender's output is sorted by category priority
(urgent 0, quick_wins 1, dev_cleanup 2, maintenance 3, media_management 4),
ties broken by descending `impact_bytes`; and whenever free space is below
10% of the total (`10 * free < total`), the first recommendation is the
urgent one — category `urgent`, confidence 1.0, targeting the paths of all
items with risk `safe`. -/
theorem c7_recommendations_order (g : RecOracles) (items : List Item) (disk : DiskMap)
    (stale : List StaleProject) :
    List.Sorted recOrder (build_recommendations g items disk stale)
    ∧ (0 < disk.disk_total → 10 * disk.disk_free < disk.disk_total →
        (build_recommendations g items disk stale).head? = some (urgentRec g items disk)
        ∧ (urgentRec g items disk).category = "urgent"
        ∧ (urgentRec g items disk).confidence = 1
        ∧ (urgentRec g items disk).items
            = (items.filter (fun i => i.risk = "safe")).map (fun i => i.path)) := by
  refine ⟨List.sorted_insertionSort recOrder _, fun h1 h2 => ⟨?_, rfl, rfl, rfl⟩⟩
  have hcond : freePctLt10 disk = true := by
    unfold freePctLt10
    rw [decide_eq_true_eq]
    exact ⟨h1, by omega⟩
  unfold build_recommendations
  rw [hcond]
  simp only [if_true]
  set L := urgentRec g items disk :: baseRecs g items stale with hL
  have hmemu : urgentRec g items disk ∈ List.insertionSort recOrder L :=
    (List.mem_insertionSort recOrder).mpr (List.mem_cons_self _ _)
  have hsorted : List.Sorted recOrder (List.insertionSort recOrder L) :=
    List.sorted_insertionSort recOrder L
  cases hout : List.insertionSort recOrder L with
  | nil => rw [hout] at hmemu; simp at hmemu
  | cons h t =>
    have hh : h ∈ L := (List.mem_insertionSort recOrder).mp
      (hout ▸ List.mem_cons_self h t)
    rcases List.mem_cons.mp hh with rfl | hbase
    · rfl
    · exfalso
      have hp1 : 1 ≤ priorityOf h.category := baseRecs_priority_pos _ _ _ _ hbase
      rw [hout] at hmemu hsorted
      rcases List.mem_cons.mp hmemu with h3 | h3
      · rw [← h3] at hp1
        simp [urgentRec, priorityOf] at hp1
      · have hrel := List.rel_of_sorted_cons hsorted _ h3
        unfold recOrder at hrel
        have hu0 : priorityOf (urgentRec g items disk).category = 0 := rfl
        omega

/-- Witness for C7 at a concrete low-disk input. -/
theorem c7_recommendations_order_witness :
    0 < lowDisk.disk_total ∧ 10 * lowDisk.disk_free < lowDisk.disk_total
    ∧ (build_recommendations constOracles [smallSafeItem] lowDisk []).head?
        = some (urgentRec constOracles [smallSafeItem] lowDisk) :=
  ⟨by decide, by decide,
   ((c7_recommendations_order constOracles [smallSafeItem] lowDisk []).2 (by decide) (by decide)).1⟩

/-- Claim C9 counterexample: a quick-win recommendation and a dev-cleanup
recommendation with the identical target-path set `["/Users/u/.npm"]` carry
different ids (`quick_…` hashes the item path, `stale_…` hashes the project
path) — so the id is not a function of the target-path set. -/
theorem c9_rec_id_counterexample :
    (build_recommendations constOracles [bigSafeItem] roomyDisk []).map
        (fun r => (r.id, r.items))
      = [("quick_", ["/Users/u/.npm"])]
    ∧ (build_recommendations constOracles [] roomyDisk [staleProj]).map
        (fun r => (r.id, r.items))
      = [("stale_", ["/Users/u/.npm"])]
    ∧ ("quick_" : String) ≠ "stale_" :=
  ⟨by decide, by decide, by decide⟩

/-- Claim C9 (amended): every recommendation id is deterministic from its
producing rule's key — `quick_` + md5-prefix of the single item path,
`stale_` + md5-prefix of the project path (not of the target set),
`batch_` + category name, or the constant `urgent_space`. -/
theorem c9_rec_id_provenance (g : RecOracles) (items : List Item) (disk : DiskMap)
    (stale : List StaleProject) (r : Recommendation)
    (hr : r ∈ build_recommendations g items disk stale) :
    (∃ item ∈ items, r = quickWinRec g item
      ∧ r.id = "quick_" ++ g.md5_8 item.path ∧ r.items = [item.path])
    ∨ (∃ proj ∈ stale, r = devCleanupRec g proj
      ∧ r.id = "stale_" ++ g.md5_8 proj.path
      ∧ r.items = proj.cleanable_dirs.map (fun d => d.path))
    ∨ (∃ grp ∈ cat_groups items, r = batchRec g grp.1 grp.2
      ∧ r.id = "batch_" ++ grp.1)
    ∨ (r = urgentRec g items disk ∧ r.id = "urgent_space") := by
  unfold build_recommendations at hr
  rw [List.mem_insertionSort] at hr
  have hbase : r ∈ baseRecs g items stale →
      (∃ item ∈ items, r = quickWinRec g item
        ∧ r.id = "quick_" ++ g.md5_8 item.path ∧ r.items = [item.path])
      ∨ (∃ proj ∈ stale, r = devCleanupRec g proj
        ∧ r.id = "stale_" ++ g.md5_8 proj.path
        ∧ r.items = proj.cleanable_dirs.map (fun d => d.path))
      ∨ (∃ grp ∈ cat_groups items, r = batchRec g grp.1 grp.2
        ∧ r.id = "batch_" ++ grp.1)
      ∨ (r = urgentRec g items disk ∧ r.id = "urgent_space") := by
    intro hb
    unfold baseRecs at hb
    rcases List.mem_append.mp hb with hb | hb
    · rcases List.mem_append.mp hb with hb | hb
      · left
        unfold quickWinRecs at hb
        rw [List.mem_flatMap] at hb
        obtain ⟨item, hmem, hin⟩ := hb
        split at hin
        · rcases List.mem_singleton.mp hin with rfl
          exact ⟨item, hmem, rfl, rfl, rfl⟩
        · simp at hin
      · right; left
        unfold devCleanupRecs at hb
        rw [List.mem_flatMap] at hb
        obtain ⟨proj, hmem, hin⟩ := hb
        split at hin
        · rcases List.mem_singleton.mp hin with rfl
          exact ⟨proj, hmem, rfl, rfl, rfl⟩
        · simp at hin
    · right; right; left
      unfold batchRecs at hb
      rw [List.mem_flatMap] at hb
      obtain ⟨grp, hmem, hin⟩ := hb
      split at hin
      · rcases List.mem_singleton.mp hin with rfl
        exact ⟨grp, hmem, rfl, rfl⟩
      · simp at hin
  split at hr
  · rcases List.mem_cons.mp hr with rfl | hb
    · right; right; right; exact ⟨rfl, rfl⟩
    · exact hbase hb
  · exact hbase hr

/-- Witness for C9 at a concrete quick-win input. -/
theorem c9_rec_id_provenance_witness :
    quickWinRec constOracles bigSafeItem
        ∈ build_recommendations constOracles [bigSafeItem] roomyDisk []
    ∧ (quickWinRec constOracles bigSafeItem).id
        = "quick_" ++ constOracles.md5_8 bigSafeItem.path := by
  refine ⟨by decide, ?_⟩
  have h := c9_rec_id_provenance constOracles [bigSafeItem] roomyDisk []
    (quickWinRec constOracles bigSafeItem) (by decide)
  rcases h with ⟨item, hmem, _, hid, _⟩ | ⟨proj, hmem, _⟩ | ⟨grp, hmem, _⟩ | ⟨heq, _⟩
  · rcases List.mem_singleton.mp hmem with rfl
    exact hid
  · simp at hmem
  · have hempty : cat_groups [bigSafeItem] = [] := by decide
    rw [hempty] at hmem
    simp at hmem
  · exact absurd heq (by decide)

/-- Banker's rounding of an integer is that integer. -/
theorem pyRound_intCast (z : ℤ) : pyRound ((z : ℚ)) = z := by
  unfold pyRound
  rw [Int.floor_intCast]
  norm_num

/-- Claim C8 counterexample: two scans one hour apart with positive growth give
a positive rate, yet no prediction is produced, because the code additionally
requires `days_span ≥ 0.1`. -/
theorem c8_short_span_counterexample :
    predict_space_exhaustion
      [{ scan_time := 0, total_bytes := 10 * 2 ^ 30 },
       { scan_time := 3600, total_bytes := 11 * 2 ^ 30 }] (50 * 2 ^ 30) = none
    ∧ (0 : ℤ) < 11 * 2 ^ 30 - 10 * 2 ^ 30 := by
  constructor
  · simp only [predict_space_exhaustion, List.getLastD]
    rw [if_pos]
    right
    rw [max_lt_iff]
    constructor <;> norm_num
  · norm_num

/-- Claim C8 (amended): with fewer than two rows no prediction is produced; with
at least two rows the prediction exists exactly when the growth
`last.total_bytes − first.total_bytes` is positive AND the clamped day span is
at least 0.1, in which case `days_until_full` is `disk_free / rate` (rounded)
at rate `growth / days_span`; the literal scenario — two scans 1.0 day apart,
10 GiB then 11 GiB, 50 GiB free — yields 50 days at 1 GiB/day. -/
theorem c8_growth_prediction :
    (∀ d : ℤ, predict_space_exhaustion [] d = none)
    ∧ (∀ (e : TimelineEntry) (d : ℤ), predict_space_exhaustion [e] d = none)
    ∧ (∀ (t0 t1 : TimelineEntry) (rest : List TimelineEntry) (d : ℤ),
        predict_space_exhaustion (t0 :: t1 :: rest) d =
          if 0 < timelineGrowth t0 t1 rest ∧ (1 : ℚ) / 10 ≤ timelineSpan t0 t1 rest then
            some { days_until_full :=
                     pyRound ((d : ℚ) /
                       ((timelineGrowth t0 t1 rest : ℚ) / timelineSpan t0 t1 rest)),
                   growth_rate_bytes_per_day :=
                     pyRound ((timelineGrowth t0 t1 rest : ℚ) / timelineSpan t0 t1 rest),
                   data_points := (t0 :: t1 :: rest).length,
                   span_days := pyRound1 (timelineSpan t0 t1 rest) }
          else none)
    ∧ predict_space_exhaustion
        [{ scan_time := 0, total_bytes := 10 * 2 ^ 30 },
         { scan_time := 86400, total_bytes := 11 * 2 ^ 30 }] (50 * 2 ^ 30)
        = some { days_until_full := 50, growth_rate_bytes_per_day := 2 ^ 30,
                 data_points := 2, span_days := 1 } := by
  have main : ∀ (t0 t1 : TimelineEntry) (rest : List TimelineEntry) (d : ℤ),
      predict_space_exhaustion (t0 :: t1 :: rest) d =
        if 0 < timelineGrowth t0 t1 rest ∧ (1 : ℚ) / 10 ≤ timelineSpan t0 t1 rest then
          some { days_until_full :=
                   pyRound ((d : ℚ) /
                     ((timelineGrowth t0 t1 rest : ℚ) / timelineSpan t0 t1 rest)),
                 growth_rate_bytes_per_day :=
                   pyRound ((timelineGrowth t0 t1 rest : ℚ) / timelineSpan t0 t1 rest),
                 data_points := (t0 :: t1 :: rest).length,
                 span_days := pyRound1 (timelineSpan t0 t1 rest) }
        else none := by
    intro t0 t1 rest d
    simp only [predict_space_exhaustion]
    rw [show max (((List.getLastD (t1 :: rest) t0).scan_time - t0.scan_time) / 86400)
          ((1 : ℚ) / 100) = timelineSpan t0 t1 rest from rfl,
        show (List.getLastD (t1 :: rest) t0).total_bytes - t0.total_bytes
          = timelineGrowth t0 t1 rest from rfl]
    by_cases hc : 0 < timelineGrowth t0 t1 rest ∧ (1 : ℚ) / 10 ≤ timelineSpan t0 t1 rest
    · rw [if_pos hc, if_neg (by push_neg; exact hc)]
      have hspan_pos : (0 : ℚ) < timelineSpan t0 t1 rest :=
        lt_of_lt_of_le (by norm_num) hc.2
      have hrate_pos : (0 : ℚ) < (timelineGrowth t0 t1 rest : ℚ) / timelineSpan t0 t1 rest := by
        apply div_pos _ hspan_pos
        exact_mod_cast hc.1
      rw [if_pos hrate_pos]
    · rw [if_neg hc, if_pos]
      rcases Decidable.not_and_iff_or_not.mp hc with h | h
      · left; omega
      · right; linarith [not_le.mp h]
  refine ⟨fun d => rfl, fun e d => rfl, main, ?_⟩
  rw [main]
  have hgrowth : timelineGrowth { scan_time := 0, total_bytes := 10 * 2 ^ 30 }
      { scan_time := 86400, total_bytes := 11 * 2 ^ 30 } [] = 2 ^ 30 := by
    unfold timelineGrowth
    simp only [List.getLastD]
    norm_num
  have hspan : timelineSpan { scan_time := 0, total_bytes := 10 * 2 ^ 30 }
      { scan_time := 86400, total_bytes := 11 * 2 ^ 30 } [] = 1 := by
    unfold timelineSpan
    simp only [List.getLastD]
    rw [max_eq_left (by norm_num)]
    norm_num
  rw [hgrowth, hspan]
  rw [if_pos ⟨by positivity, by norm_num⟩]
  have e1 : ((50 * 2 ^ 30 : ℤ) : ℚ) / (((2 ^ 30 : ℤ) : ℚ) / 1) = ((50 : ℤ) : ℚ) := by
    push_cast
    norm_num
  have e2 : ((2 ^ 30 : ℤ) : ℚ) / 1 = ((2 ^ 30 : ℤ) : ℚ) := by norm_num
  have e3 : pyRound1 1 = 1 := by
    unfold pyRound1
    rw [show (10 : ℚ) * 1 = ((10 : ℤ) : ℚ) by norm_num, pyRound_intCast]
    norm_num
  rw [e1, e2, e3, pyRound_intCast, pyRound_intCast]
  rfl

/-- Firefox-branch items: gated size and absolute paths. -/
theorem scanFirefox_facts (env : ScanEnv) (bn base : String)
    (hbase : absPath base = true) :
    ∀ i ∈ scanFirefox env bn base, MIN_ITEM_SIZE < i.size ∧ absPath i.path = true := by
  intro i hi
  unfold scanFirefox at hi
  rw [List.mem_flatMap] at hi
  obtain ⟨profile, _, hin⟩ := hi
  dsimp only at hin
  split at hin
  · simp at hin
  · rw [List.mem_flatMap] at hin
    obtain ⟨cd, _, hin⟩ := hin
    split at hin
    · simp at hin
    · rw [mem_gatedItem] at hin
      rcases hin with ⟨hsz, rfl⟩
      exact ⟨hsz, absPath_joinPath _ (absPath_joinPath _ hbase)⟩

/-- Safari-branch items: gated size and absolute paths. -/
theorem scanSafari_facts (env : ScanEnv) (bn base : String)
    (hhome : absPath env.home = true) (hbase : absPath base = true) :
    ∀ i ∈ scanSafari env bn base, MIN_ITEM_SIZE < i.size ∧ absPath i.path = true := by
  intro i hi
  unfold scanSafari at hi
  rcases List.mem_append.mp hi with hin | hin
  · rw [mem_gatedItem] at hin
    rcases hin with ⟨hsz, rfl⟩
    exact ⟨hsz, hbase⟩
  · dsimp only at hin
    split at hin
    · simp at hin
    · rw [mem_gatedItem] at hin
      rcases hin with ⟨hsz, rfl⟩
      exact ⟨hsz, absPath_joinPath _ (absPath_joinPath _ (absPath_joinPath _ hhome))⟩

/-- Chrome-family items: gated size and absolute paths. -/
theorem scanChromeFamily_facts (env : ScanEnv) (bn base : String)
    (hbase : absPath base = true) :
    ∀ i ∈ scanChromeFamily env bn base, MIN_ITEM_SIZE < i.size ∧ absPath i.path = true := by
  intro i hi
  unfold scanChromeFamily at hi
  rw [List.mem_flatMap] at hi
  obtain ⟨profile, _, hin⟩ := hi
  rw [List.mem_flatMap] at hin
  obtain ⟨cache_sub, _, hin⟩ := hin
  dsimp only at hin
  split at hin
  · simp at hin
  · rw [mem_gatedItem] at hin
    rcases hin with ⟨hsz, rfl⟩
    exact ⟨hsz, absPath_joinPath _ (absPath_joinPath _ hbase)⟩

/-- Browser-cache items: gated size and absolute paths. -/
theorem scan_browser_facts (env : ScanEnv) (hhome : absPath env.home = true) :
    ∀ i ∈ scan_browser_caches env, MIN_ITEM_SIZE < i.size ∧ absPath i.path = true := by
  intro i hi
  unfold scan_browser_caches at hi
  rw [List.mem_flatMap] at hi
  obtain ⟨nb, hnb, hin⟩ := hi
  have hbase : absPath nb.2 = true := by
    simp only [browsers, ScanEnv.library, List.mem_cons, List.not_mem_nil, or_false] at hnb
    rcases hnb with h | h | h | h | h | h <;> subst h <;>
      (repeat' apply absPath_joinPath) <;> exact hhome
  split at hin
  · simp at hin
  · split at hin
    · exact scanFirefox_facts env nb.1 nb.2 hbase i hin
    · split at hin
      · exact scanSafari_facts env nb.1 nb.2 hhome hbase i hin
      · exact scanChromeFamily_facts env nb.1 nb.2 hbase i hin

/-- Application-cache items: gated size and absolute paths. -/
theorem scan_app_facts (env : ScanEnv) (hhome : absPath env.home = true) :
    ∀ i ∈ scan_app_caches env, MIN_ITEM_SIZE < i.size ∧ absPath i.path = true := by
  intro i hi
  simp only [scan_app_caches] at hi
  rw [List.mem_flatMap] at hi
  obtain ⟨t, ht, hin⟩ := hi
  have habs : absPath t.2.1 = true := by
    simp only [app_targets, ScanEnv.library, List.mem_cons, List.not_mem_nil, or_false] at ht
    rcases ht with h|h|h|h|h|h|h|h|h|h|h|h|h|h|h|h|h <;> subst h <;> dsimp only <;>
      (repeat' apply absPath_joinPath) <;> exact hhome
  split at hin
  · simp at hin
  · rw [mem_gatedItem] at hin
    rcases hin with ⟨hsz, rfl⟩
    exact ⟨hsz, habs⟩

/-- System-log items: gated size and absolute paths. -/
theorem scan_logs_facts (env : ScanEnv) (hhome : absPath env.home = true) :
    ∀ i ∈ scan_system_logs env, MIN_ITEM_SIZE < i.size ∧ absPath i.path = true := by
  intro i hi
  simp only [scan_system_logs] at hi
  rw [List.mem_flatMap] at hi
  obtain ⟨t, ht, hin⟩ := hi
  have habs : absPath t.2.1 = true := by
    simp only [log_targets, ScanEnv.library, List.mem_cons, List.not_mem_nil, or_false] at ht
    rcases ht with h|h|h|h|h <;> subst h <;> dsimp only <;>
      (repeat' apply absPath_joinPath) <;> first | exact hhome | rfl
  split at hin
  · simp at hin
  · rw [mem_gatedItem] at hin
    rcases hin with ⟨hsz, rfl⟩
    exact ⟨hsz, habs⟩

/-- General-cache items: gated size and absolute paths. -/
theorem scan_general_facts (env : ScanEnv) (hhome : absPath env.home = true) :
    ∀ i ∈ scan_general_caches env, MIN_ITEM_SIZE < i.size ∧ absPath i.path = true := by
  intro i hi
  simp only [scan_general_caches] at hi
  split at hi
  · simp at hi
  · rw [List.mem_flatMap] at hi
    obtain ⟨entry, _, hin⟩ := hi
    split at hin
    · simp at hin
    · split at hin
      · simp at hin
      · rw [mem_gatedItem] at hin
        rcases hin with ⟨hsz, rfl⟩
        refine ⟨lt_trans (by decide) hsz, ?_⟩
        exact absPath_joinPath _ (absPath_joinPath _ (absPath_joinPath _ hhome))

/-- Mail/backup items: absolute paths, and gated size except for the snapshot pseudo-item. -/
theorem scan_mail_facts (env : ScanEnv) (hhome : absPath env.home = true) :
    ∀ i ∈ scan_mail_and_backups env,
      absPath i.path = true
      ∧ (i.path ≠ "/System/Volumes/Data/.TimeMachine" → MIN_ITEM_SIZE < i.size) := by
  intro i hi
  simp only [scan_mail_and_backups] at hi
  rcases List.mem_append.mp hi with hi | htrash
  · rcases List.mem_append.mp hi with hi | hios
    · rcases List.mem_append.mp hi with hmail | hsnap
      · -- mail downloads block
        split at hmail
        · simp at hmail
        · rw [mem_gatedItem] at hmail
          rcases hmail with ⟨hsz, rfl⟩
          refine ⟨?_, fun _ => hsz⟩
          unfold mailDownloadsPath
          dsimp only
          split
          · exact absPath_joinPath _ (absPath_joinPath _ hhome)
          · exact absPath_joinPath _ (absPath_joinPath _ (absPath_joinPath _
              (absPath_joinPath _ (absPath_joinPath _ (absPath_joinPath _ hhome)))))
      · -- snapshot block
        split at hsnap
        · simp at hsnap
        · rcases List.mem_singleton.mp hsnap with rfl
          exact ⟨rfl, fun h => absurd rfl h⟩
    · -- ios backups block
      split at hios
      · simp at hios
      · by_cases hsz : dirSizeAt env.root (joinPath (joinPath
            (joinPath env.library "Application Support") "MobileSync") "Backup")
            > MIN_ITEM_SIZE
        · rw [if_neg (by simpa using hsz)] at hios
          rcases List.mem_singleton.mp hios with rfl
          exact ⟨absPath_joinPath _ (absPath_joinPath _ (absPath_joinPath _
            (absPath_joinPath _ hhome))), fun _ => hsz⟩
        · rw [if_pos (by simpa using hsz)] at hios
          simp at hios
  · -- trash block
    split at htrash
    · simp at htrash
    · by_cases hsz : dirSizeAt env.root (joinPath env.home ".Trash") > MIN_ITEM_SIZE
      · rw [if_neg (by simpa using hsz)] at htrash
        rcases List.mem_singleton.mp htrash with rfl
        exact ⟨absPath_joinPath _ hhome, fun _ => hsz⟩
      · rw [if_pos (by simpa using hsz)] at htrash
        simp at htrash

/-- Items of the node_modules walk: gated size and absolute paths (strong induction on the tree size). -/
theorem walkDev_facts (env : ScanEnv) (sr : String) :
    ∀ (k : Nat) (node : FSNode), sizeOf node ≤ k →
    ∀ dirpath, absPath dirpath = true →
    ∀ i ∈ walkDev env sr dirpath node,
      MIN_ITEM_SIZE < i.size ∧ absPath i.path = true := by
  intro k
  induction k with
  | zero =>
    intro node hle
    exfalso
    cases node <;> simp_arith at hle
  | succ k ih =>
    intro node hle dirpath hdp i hi
    cases node with
    | file n => simp [walkDev] at hi
    | symlink => simp [walkDev] at hi
    | dir entries =>
      rw [walkDev] at hi
      dsimp only at hi
      split at hi
      · simp at hi
      · rcases List.mem_append.mp hi with hin | hin
        · split at hin
          · rw [mem_gatedItem] at hin
            rcases hin with ⟨hsz, rfl⟩
            exact ⟨hsz, absPath_joinPath _ hdp⟩
          · simp at hin
        · rw [List.mem_flatMap] at hin
          obtain ⟨e, _, hin⟩ := hin
          obtain ⟨⟨nm, child⟩, hmem⟩ := e
          split at hin
          · have hszof : sizeOf child ≤ k := by
              have h1 := List.sizeOf_lt_of_mem hmem
              simp only [Prod.mk.sizeOf_spec] at h1
              simp only [FSNode.dir.sizeOf_spec] at hle
              omega
            exact ih child hszof (joinPath dirpath nm) (absPath_joinPath _ hdp) i hin
          · simp at hin

/-- Developer-cache items: gated size and absolute paths. -/
theorem scan_dev_facts (env : ScanEnv) (hhome : absPath env.home = true)
    (hgo : env.gopath = "" ∨ absPath env.gopath = true) :
    ∀ i ∈ scan_dev_caches env, MIN_ITEM_SIZE < i.size ∧ absPath i.path = true := by
  intro i hi
  simp only [scan_dev_caches] at hi
  rcases List.mem_append.mp hi with hi | hgoblk
  rcases List.mem_append.mp hi with hi | hcargo
  rcases List.mem_append.mp hi with hi | hbrew
  rcases List.mem_append.mp hi with hi | hpip
  rcases List.mem_append.mp hi with hi | hwalk
  rcases List.mem_append.mp hi with hdocker | hnpm
  · -- docker block
    split at hdocker
    · split at hdocker
      · simp at hdocker
      · rw [mem_gatedItem] at hdocker
        rcases hdocker with ⟨hsz, rfl⟩
        exact ⟨hsz, absPath_joinPath _ (absPath_joinPath _ (absPath_joinPath _
          (absPath_joinPath _ hhome)))⟩
    · simp at hdocker
  · -- npm block
    split at hnpm
    · simp at hnpm
    · rw [mem_gatedItem] at hnpm
      rcases hnpm with ⟨hsz, rfl⟩
      exact ⟨hsz, absPath_joinPath _ hhome⟩
  · -- node_modules walk
    rw [List.mem_flatMap] at hwalk
    obtain ⟨sr, hsr, hin⟩ := hwalk
    have hsrabs : absPath sr = true := by
      simp only [node_search_paths, List.mem_cons, List.not_mem_nil, or_false] at hsr
      rcases hsr with h|h|h|h|h|h|h|h|h <;> subst h <;> exact absPath_joinPath _ hhome
    unfold scanNodeModulesRoot at hin
    split at hin
    · exact walkDev_facts env sr (sizeOf (FSNode.dir _)) _ (le_refl _) sr hsrabs i hin
    · simp at hin
  · -- pip block
    split at hpip
    · simp at hpip
    · rw [mem_gatedItem] at hpip
      rcases hpip with ⟨hsz, rfl⟩
      exact ⟨hsz, absPath_joinPath _ (absPath_joinPath _ (absPath_joinPath _ hhome))⟩
  · -- homebrew block
    split at hbrew
    · simp at hbrew
    · rw [mem_gatedItem] at hbrew
      rcases hbrew with ⟨hsz, rfl⟩
      exact ⟨hsz, absPath_joinPath _ (absPath_joinPath _ (absPath_joinPath _ hhome))⟩
  · -- cargo block
    split at hcargo
    · simp at hcargo
    · rw [mem_gatedItem] at hcargo
      rcases hcargo with ⟨hsz, rfl⟩
      exact ⟨hsz, absPath_joinPath _ (absPath_joinPath _ hhome)⟩
  · -- go block
    split at hgoblk
    · simp at hgoblk
    · rw [mem_gatedItem] at hgoblk
      rcases hgoblk with ⟨hsz, rfl⟩
      refine ⟨hsz, ?_⟩
      unfold goCachePath
      dsimp only
      split
      · rename_i hcond
        rcases hgo with hg | hg
        · rw [Bool.and_eq_true] at hcond
          rcases hcond with ⟨-, hne⟩
          rw [decide_eq_true_eq] at hne
          exact absurd hg hne
        · exact absPath_joinPath _ (absPath_joinPath _ (absPath_joinPath _ hg))
      · exact absPath_joinPath _ (absPath_joinPath _ (absPath_joinPath _
          (absPath_joinPath _ hhome)))

/-- Claim C3 counterexample: in an environment where `tmutil` reports one local
snapshot, the `complete` event's item list contains the Time Machine snapshot
item of size 0 — so not every item of a `complete` event has size ≥ 1024. -/
theorem c3_complete_event_size_counterexample : ¬ (∀ i ∈ completeItems envSnapshot, 1024 ≤ i.size) := by decide

/-- Claim C3 (amended): every item of the `complete` event has an absolute path
(given that `HOME`, and `GOPATH` when consulted, are absolute), and every item
other than the Time Machine snapshot pseudo-item (path
`/System/Volumes/Data/.TimeMachine`, hard-coded size 0) is strictly larger
than `MIN_ITEM_SIZE` = 1024 bytes. -/
theorem c3_complete_event_items (env : ScanEnv) (hhome : absPath env.home = true)
    (hgo : env.gopath = "" ∨ absPath env.gopath = true)
    (i : Item) (hi : i ∈ completeItems env) :
    absPath i.path = true
    ∧ (i.path ≠ "/System/Volumes/Data/.TimeMachine" → MIN_ITEM_SIZE < i.size) := by
  rw [completeItems, List.mem_insertionSort] at hi
  unfold all_items at hi
  rcases List.mem_append.mp hi with hi | hgen
  rcases List.mem_append.mp hi with hi | hdev
  rcases List.mem_append.mp hi with hi | hmail
  rcases List.mem_append.mp hi with hi | hlogs
  rcases List.mem_append.mp hi with hbrow | happ
  · have h := scan_browser_facts env hhome i hbrow
    exact ⟨h.2, fun _ => h.1⟩
  · have h := scan_app_facts env hhome i happ
    exact ⟨h.2, fun _ => h.1⟩
  · have h := scan_logs_facts env hhome i hlogs
    exact ⟨h.2, fun _ => h.1⟩
  · exact scan_mail_facts env hhome i hmail
  · have h := scan_dev_facts env hhome hgo i hdev
    exact ⟨h.2, fun _ => h.1⟩
  · have h := scan_general_facts env hhome i hgen
    exact ⟨h.2, fun _ => h.1⟩

/-- Witness for C3 at the concrete environment `envGeneralCache`. -/
theorem c3_complete_event_items_witness :
    absPath envGeneralCache.home = true
    ∧ (envGeneralCache.gopath = "" ∨ absPath envGeneralCache.gopath = true)
    ∧ (mkItem envGeneralCache "/Users/u/Library/Caches/SomeApp" (6 * 1024 * 1024)
        "safe" "general_cache" "Cache: SomeApp" "Application cache for SomeApp")
        ∈ completeItems envGeneralCache
    ∧ absPath (mkItem envGeneralCache "/Users/u/Library/Caches/SomeApp" (6 * 1024 * 1024)
        "safe" "general_cache" "Cache: SomeApp" "Application cache for SomeApp").path = true :=
  ⟨by decide, by decide, by decide,
   (c3_complete_event_items envGeneralCache (by decide) (by decide) _ (by decide)).1⟩

/-- Witness for C5 on a concrete two-item permutation with distinct paths. -/
theorem c5_content_hash_canonicalization_witness :
    List.Perm [attItemA, attItemC] [attItemC, attItemA]
    ∧ ([attItemA, attItemC].map (fun i => i.path)).Nodup
    ∧ content_hash id [attItemA, attItemC] = content_hash id [attItemC, attItemA] :=
  ⟨List.Perm.swap _ _ _, by decide,
   c5_content_hash_canonicalization.1 id [attItemA, attItemC] [attItemC, attItemA]
     (List.Perm.swap _ _ _) (by decide)⟩

/-- Claim C6 counterexample: the size probe applied to a path denoting a
single 4096-byte regular file does not return 4096 — `os.walk` of a
non-directory yields nothing, so the probe returns 0. -/
theorem c6_file_size_counterexample :
    ¬ (dirSizeAt (FSNode.dir [("f", FSNode.file 4096)]) "/f" = 4096) := by
  decide

/-- Claim C6 (amended): `get_dir_size_fast` applied to a path that
resolves to a single regular file returns 0 (callers obtain file sizes
separately via `os.path.getsize`). -/
theorem c6_file_probe_returns_zero (root : FSNode) (p : String) (n : Nat)
    (h : resolve root p = some (FSNode.file n)) :
    dirSizeAt root p = 0 := by
  unfold dirSizeAt
  rw [h]
  rfl

/-- Witness for C6 at a one-file filesystem. -/
theorem c6_file_probe_returns_zero_witness :
    resolve (FSNode.dir [("f", FSNode.file 4096)]) "/f" = some (FSNode.file 4096)
    ∧ dirSizeAt (FSNode.dir [("f", FSNode.file 4096)]) "/f" = 0 :=
  ⟨rfl, c6_file_probe_returns_zero _ _ 4096 rfl⟩
